import Mathlib

/-!
Verification of the structured source-editing engine of `unity-mcp-ide`
(`src/MCPForUnity/Server~/src/services/tools/script_apply_edits.py` and
`src/MCPForUnity/Server~/src/services/tools/utils.py`).

The Python source is shallowly embedded: dictionaries holding edit operations
become a record with one `Option` field per key the source reads, text buffers
become `List Char`, exceptions become `Except`, and the remote Unity editor
(network transport) becomes an oracle parameter recording which change-sets
get dispatched.  Regular-expression patterns are embedded as a small datatype
`APat` whose constructors carry exact executable semantics for the pattern
shapes exercised here (plain literals and the closing-brace line pattern
`^[ ]*\}$`); a pattern that fails to compile is `APat.bad`.
-/

namespace UnityMcp

/-! ## Text utilities (Python string semantics, `\n`-separated buffers) -/

/-- Python whitespace for `str.strip` / `\s`: space, tab, newline, CR, VT, FF. -/
def pyIsSpace (c : Char) : Bool :=
  c = ' ' || c = '\t' || c = '\n' || c = '\r' || c = '\x0b' || c = '\x0c'

/-- Python regex `\w`: letters, digits, underscore (ASCII fragment). -/
def isWordChar (c : Char) : Bool := c.isAlphanum || c = '_'

def lowerL (l : List Char) : List Char := l.map Char.toLower

/-- Python `str.strip()` (both ends). -/
def pyStrip (l : List Char) : List Char :=
  ((l.dropWhile pyIsSpace).reverse.dropWhile pyIsSpace).reverse

/-- Python `str.strip().lower()` applied to a Lean `String`. -/
def stripLower (s : String) : String :=
  String.mk (lowerL (pyStrip s.toList))

/-- Python `str.startswith` / `str.endswith` over the character lists. -/
def strStartsWith (s p : String) : Bool := p.toList.isPrefixOf s.toList

def strEndsWith (s p : String) : Bool := p.toList.reverse.isPrefixOf s.toList.reverse

/-- Python `str.splitlines()` (no kept ends) for `\n`-separated text. -/
def splitLinesAux : List Char → List Char → List (List Char)
  | [], acc => if acc.isEmpty then [] else [acc.reverse]
  | '\n' :: rest, acc => acc.reverse :: splitLinesAux rest []
  | c :: rest, acc => splitLinesAux rest (c :: acc)

def splitLines (t : List Char) : List (List Char) := splitLinesAux t []

/-- Python `str.splitlines(keepends=True)` for `\n`-separated text. -/
def splitLinesKeepAux : List Char → List Char → List (List Char)
  | [], acc => if acc.isEmpty then [] else [acc.reverse]
  | '\n' :: rest, acc => ('\n' :: acc).reverse :: splitLinesKeepAux rest []
  | c :: rest, acc => splitLinesKeepAux rest (c :: acc)

def splitLinesKeep (t : List Char) : List (List Char) := splitLinesKeepAux t []

/-- Offsets at which lines start: `[0]` plus the position after every `\n`
(the `line_starts` table of `_find_best_closing_brace_match`). -/
def lineStartsAux : List Char → Nat → List Nat
  | [], _ => []
  | '\n' :: rest, i => (i + 1) :: lineStartsAux rest (i + 1)
  | _ :: rest, i => lineStartsAux rest (i + 1)

def lineStartsOf (t : List Char) : List Nat := 0 :: lineStartsAux t 0

/-- Model of `bisect.bisect_right(line_starts, pos) - 1`: index of the last line start
`≤ pos`. -/
def lineNumOf (starts : List Nat) (pos : Nat) : Nat :=
  (starts.countP (fun s => s ≤ pos)) - 1

/-- Model of `len(line) - len(line.lstrip())`. -/
def countLeadingWs (l : List Char) : Nat := (l.takeWhile pyIsSpace).length

/-- The lines of a buffer paired with their start offsets. -/
def lineSpansAux : List Char → Nat → List Char → List (Nat × List Char)
  | [], st, acc => if acc.isEmpty then [] else [(st, acc.reverse)]
  | '\n' :: rest, st, acc => (st, acc.reverse) :: lineSpansAux rest (st + acc.length + 1) []
  | c :: rest, st, acc => lineSpansAux rest st (c :: acc)

def lineSpans (t : List Char) : List (Nat × List Char) := lineSpansAux t 0 []

/-! ## The method-signature regex
`_METHOD_SIGNATURE_PATTERN = \b(void|public|private|protected)\s+\w+\s*\(`
(`utils.py` line 10).  Because `\s` and `\w` are disjoint character classes
and the expression ends at a literal `(`, a match starting at a given offset
exists iff the keyword sits at a word boundary and is followed by a maximal
whitespace run (length ≥ 1), a maximal word run (length ≥ 1), a maximal
whitespace run, and then `(`. -/

def sigKeywords : List (List Char) :=
  ["void".toList, "public".toList, "private".toList, "protected".toList]

def sigTailMatch (t : List Char) : Bool :=
  let ws1 := t.takeWhile pyIsSpace
  if ws1.isEmpty then false else
  let t1 := t.dropWhile pyIsSpace
  let w := t1.takeWhile isWordChar
  if w.isEmpty then false else
  let t2 := (t1.dropWhile isWordChar).dropWhile pyIsSpace
  match t2 with
  | '(' :: _ => true
  | _ => false

def sigAt (t : List Char) : Bool :=
  sigKeywords.any (fun kw => kw.isPrefixOf t && sigTailMatch (t.drop kw.length))

def sigSearchAux : Option Char → List Char → Bool
  | prev, [] =>
    match prev with
    | _ => false
  | prev, c :: rest =>
    ((match prev with
      | none => true
      | some p => !isWordChar p) && sigAt (c :: rest))
    || sigSearchAux (some c) rest

/-- Model of `re.search(_METHOD_SIGNATURE_PATTERN, line) is not None`. -/
def sigSearch (l : List Char) : Bool := sigSearchAux none l

/-! ## Regex patterns and `re.finditer` -/

/-- A regex match: `(m.start(), m.end())`. -/
structure Mtch where
  start : Nat
  stop : Nat
deriving DecidableEq, Repr

/-- Embedded anchor/regex patterns, with executable `finditer` semantics.
`lit s` is a pattern containing no regex metacharacters (plain substring
search); `spacesCloseBraceLine` is the pattern `^[ ]*\}$` under
`re.MULTILINE`; `bad s` is a pattern that fails to compile. -/
inductive APat
  | lit (s : String)
  | spacesCloseBraceLine
  | bad (s : String)
deriving DecidableEq, Repr

/-- The raw pattern string (what Python inspects with `'}' in pattern` etc.). -/
def APat.text : APat → String
  | .lit s => s
  | .spacesCloseBraceLine => "^[ ]*\\\x7d$"
  | .bad s => s

/-- Model of `re.finditer` with an empty pattern: one empty match at every position. -/
def emptyPatMatches (n : Nat) : List Mtch :=
  (List.range (n + 1)).map (fun i => ⟨i, i⟩)

/-- Left-to-right non-overlapping occurrences of a non-empty literal
pattern.  `fuel` is structural-recursion fuel; every call site passes
`t.length + 1`, which always suffices because each step consumes at least
one character. -/
def litScanFrom (pat : List Char) : Nat → List Char → Nat → List Mtch
  | 0, _, _ => []
  | _ + 1, [], _ => []
  | fuel + 1, c :: rest, i =>
    if pat.isPrefixOf (c :: rest) ∧ pat ≠ [] then
      ⟨i, i + pat.length⟩ ::
        litScanFrom pat fuel (List.drop pat.length (c :: rest)) (i + pat.length)
    else
      litScanFrom pat fuel rest (i + 1)

/-- A line consisting of spaces followed by a single `}` (the lines matched
by `^[ ]*\}$`). -/
def isSpacesBrace (l : List Char) : Bool :=
  match l.dropWhile (fun c => c = ' ') with
  | ['}'] => true
  | _ => false

/-- Matches of `^[ ]*\}$` under `re.MULTILINE`: one per qualifying line,
spanning the whole line. -/
def braceLineMatches (t : List Char) : List Mtch :=
  (lineSpans t).filterMap
    (fun p => if isSpacesBrace p.2 then some ⟨p.1, p.1 + p.2.length⟩ else none)

/-- Model of `list(re.finditer(pattern, text, flags))`; `.error` models a pattern that
fails to compile (`re.error`). -/
def finditer (p : APat) (ignoreCase : Bool) (t : List Char) : Except Unit (List Mtch) :=
  match p with
  | .bad _ => .error ()
  | .spacesCloseBraceLine => .ok (braceLineMatches t)
  | .lit s =>
    let pat := if ignoreCase then lowerL s.toList else s.toList
    let tt := if ignoreCase then lowerL t else t
    match pat with
    | [] => .ok (emptyPatMatches t.length)
    | _ => .ok (litScanFrom pat (tt.length + 1) tt 0)

/-! ## `_find_best_closing_brace_match` (utils.py lines 316-388) -/

/-- The score accumulated for one match, following the source imperatively:
start from 0, add the indentation and distance-from-end components, subtract
5 per context line matching the method-signature regex, then add the
class-ending bonus.  Matches whose line number falls outside the line list
keep score 0 (the `if line_num < len(lines)` guard). -/
def scoreMatch (lines : List (List Char)) (starts : List Nat) (m : Mtch) : Int :=
  let n := lineNumOf starts m.start
  if h : n < lines.length then
    let line := lines.get ⟨n, h⟩
    let ind : Nat := countLeadingWs line
    let s1 : Int := max 0 (20 - (ind : Int))
    let dist : Nat := lines.length - n
    let s2 : Int := s1 + max 0 (10 - (dist : Int))
    let ctx := (lines.take (min lines.length (n + 2))).drop (n - 3)
    let s3 := ctx.foldl (fun acc l => if sigSearch l then acc - 5 else acc) s2
    if ind ≤ 4 ∧ dist ≤ 3 then s3 + 15 else s3
  else 0

/-- First element attaining the maximal score.  This realizes the source's
`scored_matches.sort(key=lambda x: x[0], reverse=True)` (Python's sort is
stable, so ties keep first-found order) followed by `scored_matches[0][1]`. -/
def pickBestAux (best : Int × Mtch) : List (Int × Mtch) → Mtch
  | [] => best.2
  | (s, m) :: rest => if s > best.1 then pickBestAux (s, m) rest else pickBestAux best rest

/-- Model of `_find_best_closing_brace_match(matches, text)`. -/
def findBestClosingBraceMatch (ms : List Mtch) (t : List Char) : Option Mtch :=
  let lines := splitLines t
  let starts := lineStartsOf t
  let scored := ms.map (fun m => (scoreMatch lines starts m, m))
  match scored with
  | [] => none
  | b :: rest => some (pickBestAux b rest)

/-- Model of `'}' in pattern and ('$' in pattern or pattern.endswith(r'\s*'))`. -/
def isClosingBracePattern (p : String) : Bool :=
  p.toList.contains '}' && (p.toList.contains '$' || strEndsWith p "\\s*")

/-- Model of `find_best_anchor_match(pattern, text, flags, prefer_last)`
(utils.py lines 274-313). -/
def findBestAnchorMatch (p : APat) (ignoreCase : Bool) (t : List Char)
    (preferLast : Bool) : Except Unit (Option Mtch) := do
  let ms ← finditer p ignoreCase t
  match ms with
  | [] => pure none
  | [m] => pure (some m)
  | _ :: _ :: _ =>
    if isClosingBracePattern p.text && preferLast then
      pure (findBestClosingBraceMatch ms t)
    else
      pure (if preferLast then ms.getLast? else ms.head?)

/-! ## The edit-operation record

A raw edit arrives as a JSON dictionary.  The embedding gives the record one
`Option` field per key the source reads; an absent key is `none`.  The source
key `"class"` is the field `class_`; the LSP-style `"range"` value is
`LspRange`.  Anchor/regex-pattern strings are carried as `APat`. -/

structure LspPos where
  line : Option Int := none
  character : Option Int := none
deriving DecidableEq, Repr

structure LspRange where
  startPos : LspPos := {}
  stopPos : LspPos := {}
deriving DecidableEq, Repr

set_option maxHeartbeats 1000000 in
structure Edit where
  op : Option String := none
  operation : Option String := none
  type : Option String := none
  mode : Option String := none
  className : Option String := none
  class_name : Option String := none
  class_ : Option String := none
  methodName : Option String := none
  method_name : Option String := none
  target : Option String := none
  method : Option String := none
  replacement : Option String := none
  new_content : Option String := none
  newMethod : Option String := none
  new_method : Option String := none
  content : Option String := none
  afterMethodName : Option String := none
  after : Option String := none
  after_method : Option String := none
  beforeMethodName : Option String := none
  before : Option String := none
  before_method : Option String := none
  anchor_method : Option String := none
  position : Option String := none
  anchor : Option APat := none
  anchorText : Option APat := none
  pattern : Option APat := none
  text : Option String := none
  newText : Option String := none
  insert : Option String := none
  startLine : Option Int := none
  startCol : Option Int := none
  endLine : Option Int := none
  endCol : Option Int := none
  range : Option LspRange := none
  ignore_case : Option Bool := none
  allow_noop : Option Bool := none
  prefer_last : Option Bool := none
  count : Option Int := none
deriving DecidableEq, Repr

/-- Python truthiness of `e.get(key)` for a string field: present and
non-empty. -/
def strTruthy (o : Option String) : Bool := o.getD "" ≠ ""

/-- Python truthiness of `e.get(key)` for a pattern field: present with a
non-empty pattern string. -/
def patTruthy (o : Option APat) : Bool := (o.map APat.text).getD "" ≠ ""

/-- Model of `a or b or ... or ""` over `e.get(...)` results: first present non-empty
string, else `""`. -/
def firstTruthyStr : List (Option String) → String
  | [] => ""
  | some s :: rest => if s ≠ "" then s else firstTruthyStr rest
  | none :: rest => firstTruthyStr rest

def pyLowerStr (s : String) : String := String.mk (lowerL s.toList)

/-- Model of `(e.get("op") or e.get("operation") or e.get("type") or e.get("mode") or
"").strip().lower()` — the op-tag resolution chain used by
`apply_edits_locally` and the dispatch paths of `script_apply_edits`. -/
def opTagFull (e : Edit) : String :=
  stripLower (firstTruthyStr [e.op, e.operation, e.type, e.mode])

/-- Model of `(e.get("op") or "").lower()` — the shorter accessor used by the routing
decision (script_apply_edits.py line 340). -/
def opTagShort (e : Edit) : String := pyLowerStr (e.op.getD "")

/-!  `_unwrap_and_alias` (script_apply_edits.py lines 70-154) minus the
single-key wrapper unwrapping of lines 72-82, which hoists an edit nested as
`{"replace_method": {...}}` and is orthogonal to field aliasing (the record
models the already-unwrapped dict).  Each source block becomes one step
function, composed in source order by `aliasResolve`; `e.pop` becomes
setting the field to `none`. -/

/-- Lines 85-88: op-tag resolution from `op`/`operation`/`type`/`mode`. -/
def aliasStepOp (edit : Edit) : Edit :=
  let opv := stripLower (firstTruthyStr [edit.op, edit.operation, edit.type, edit.mode])
  if opv ≠ "" then { edit with op := some opv } else edit

/-- Lines 91-94: `class_name`/`class` → `className`. -/
def aliasStepClass (e : Edit) : Edit :=
  let e1 := match e.class_name, e.className with
    | some v, none => { e with className := some v, class_name := none }
    | _, _ => e
  match e1.class_, e1.className with
    | some v, none => { e1 with className := some v, class_ := none }
    | _, _ => e1

/-- Lines 95-100: `method_name`/`target`/`method` → `methodName`. -/
def aliasStepMethod (e : Edit) : Edit :=
  let e1 := match e.method_name, e.methodName with
    | some v, none => { e with methodName := some v, method_name := none }
    | _, _ => e
  let e2 := match e1.target, e1.methodName with
    | some v, none => { e1 with methodName := some v, target := none }
    | _, _ => e1
  match e2.method, e2.methodName with
    | some v, none => { e2 with methodName := some v, method := none }
    | _, _ => e2

/-- Lines 101-108: `new_content`/`newMethod`/`new_method`/`content` →
`replacement`. -/
def aliasStepReplacement (e : Edit) : Edit :=
  let e1 := match e.new_content, e.replacement with
    | some v, none => { e with replacement := some v, new_content := none }
    | _, _ => e
  let e2 := match e1.newMethod, e1.replacement with
    | some v, none => { e1 with replacement := some v, newMethod := none }
    | _, _ => e1
  let e3 := match e2.new_method, e2.replacement with
    | some v, none => { e2 with replacement := some v, new_method := none }
    | _, _ => e2
  match e3.content, e3.replacement with
    | some v, none => { e3 with replacement := some v, content := none }
    | _, _ => e3

/-- Lines 109-116: `after`/`after_method` → `afterMethodName`,
`before`/`before_method` → `beforeMethodName`. -/
def aliasStepAfterBefore (e : Edit) : Edit :=
  let e1 := match e.after, e.afterMethodName with
    | some v, none => { e with afterMethodName := some v, after := none }
    | _, _ => e
  let e2 := match e1.after_method, e1.afterMethodName with
    | some v, none => { e1 with afterMethodName := some v, after_method := none }
    | _, _ => e1
  let e3 := match e2.before, e2.beforeMethodName with
    | some v, none => { e2 with beforeMethodName := some v, before := none }
    | _, _ => e2
  match e3.before_method, e3.beforeMethodName with
    | some v, none => { e3 with beforeMethodName := some v, before_method := none }
    | _, _ => e3

/-- Lines 117-124: `anchor_method` becomes before/after by `position`
(default after). -/
def aliasStepAnchorMethod (e : Edit) : Edit :=
  match e.anchor_method with
  | some anchorName =>
    let e1 := { e with anchor_method := none }
    let pos := stripLower (firstTruthyStr [e1.position, some "after"])
    if pos = "before" ∧ e1.beforeMethodName = none then
      { e1 with beforeMethodName := some anchorName }
    else if ¬ (pos = "before" ∧ e1.beforeMethodName = none) ∧ e1.afterMethodName = none then
      { e1 with afterMethodName := some anchorName }
    else e1
  | none => e

/-- Lines 125-128: `anchorText` → `anchor`, and `pattern` → `anchor` for
`anchor_*` ops. -/
def aliasStepAnchor (e : Edit) : Edit :=
  let e1 := match e.anchorText, e.anchor with
    | some v, none => { e with anchor := some v, anchorText := none }
    | _, _ => e
  match e1.pattern, e1.anchor with
  | some v, none =>
    if strTruthy e1.op ∧ strStartsWith (e1.op.getD "") "anchor_" then
      { e1 with anchor := some v, pattern := none }
    else e1
  | _, _ => e1

/-- Lines 129-130: `newText` → `text`. -/
def aliasStepNewText (e : Edit) : Edit :=
  match e.newText, e.text with
  | some v, none => { e with text := some v, newText := none }
  | _, _ => e

/-- Lines 132-141: a method-anchored `anchor_insert` without an anchor is
upgraded to `insert_method`. -/
def aliasStepReclass (e : Edit) : Edit :=
  if e.op = some "anchor_insert" ∧ ¬ patTruthy e.anchor
      ∧ (strTruthy e.afterMethodName ∨ strTruthy e.beforeMethodName) then
    let e1 := { e with op := some "insert_method" }
    if e1.replacement.isNone then { e1 with replacement := some (e1.text.getD "") } else e1
  else e

/-- Lines 143-153: an LSP-like `range` edit becomes `replace_range` with
1-based coordinates; line 152 reads `newText` from the ORIGINAL dict. -/
def aliasStepRange (orig : Edit) (e : Edit) : Edit :=
  match e.range with
  | some rng =>
    let e1 := { e with
      range := none
      op := some "replace_range"
      startLine := some (rng.startPos.line.getD 0 + 1)
      startCol := some (rng.startPos.character.getD 0 + 1)
      endLine := some (rng.stopPos.line.getD 0 + 1)
      endCol := some (rng.stopPos.character.getD 0 + 1) }
    if orig.newText.isSome ∧ e1.text = none then { e1 with text := some (orig.newText.getD "") }
    else e1
  | none => e

/-- Model of `_unwrap_and_alias`, as the composition of the step functions in source
order. -/
def aliasResolve (edit : Edit) : Edit :=
  aliasStepRange edit
    (aliasStepReclass
      (aliasStepNewText
        (aliasStepAnchor
          (aliasStepAnchorMethod
            (aliasStepAfterBefore
              (aliasStepReplacement
                (aliasStepMethod
                  (aliasStepClass
                    (aliasStepOp edit)))))))))

/-- One iteration of `_normalize_edits` (script_apply_edits.py lines 157-189). -/
def normalizeOne (scriptName : String) (raw : Edit) : Edit :=
  let e := aliasResolve raw
  let op := stripLower (firstTruthyStr [e.op, e.operation, e.type, e.mode])
  let e := if (op = "replace_class" ∨ op = "delete_class" ∨ op = "replace_method"
      ∨ op = "delete_method" ∨ op = "insert_method") ∧ ¬ strTruthy e.className then
      { e with className := some scriptName }
    else e
  if op = "text_replace" then { e with op := some "replace_range" }
  else if op = "regex_delete" then
    let e := { e with op := some "regex_replace" }
    if e.text.isNone then { e with text := some "" } else e
  else
    let e := if op = "regex_replace" ∧ e.replacement.isNone then
        if e.text.isSome then { e with replacement := some (e.text.getD "") }
        else if e.insert.isSome ∨ e.content.isSome then
          { e with replacement := some (firstTruthyStr [e.insert, e.content]) }
        else e
      else e
    if op = "anchor_insert" ∧ ¬ (strTruthy e.text ∨ strTruthy e.insert
        ∨ strTruthy e.content ∨ strTruthy e.replacement) then
      { e with op := some "anchor_delete" }
    else e

/-- Model of `_normalize_edits(raw_edits, script_name)`. -/
def normalizeEdits (scriptName : String) (edits : List Edit) : List Edit :=
  edits.map (normalizeOne scriptName)

/-! ## Results and validation -/

/-- The `EditResult` payload shape.  `expectedPresent` / `rewritePresent` /
`hasNormalized` record whether `data.expected`, `data.rewrite_suggestion`
and `data.normalizedEdits` are attached (their contents are caller
documentation that no claim inspects). -/
structure Result where
  success : Bool := false
  code : Option String := none
  message : String := ""
  routing : Option String := none
  diff : Option String := none
  noOp : Bool := false
  expectedPresent : Bool := false
  rewritePresent : Bool := false
  hasNormalized : Bool := false
deriving DecidableEq, Repr

/-- Model of `error_with_hint` = `_err("missing_field", msg, expected=…, rewrite=…,
normalized=…)` (lines 271-272). -/
def missingField (msg : String) : Result :=
  { success := false, code := some "missing_field", message := msg,
    expectedPresent := true, rewritePresent := true, hasNormalized := true }

/-- One edit's required-field checks (script_apply_edits.py lines 274-334). -/
def validateOne (e : Edit) : Option Result :=
  let op := e.op.getD ""
  if op = "replace_method" then
    if ¬ strTruthy e.methodName then
      some (missingField "replace_method requires 'methodName'.")
    else if ¬ (strTruthy e.replacement ∨ strTruthy e.text) then
      some (missingField "replace_method requires 'replacement' (inline or base64).")
    else none
  else if op = "insert_method" then
    if ¬ (strTruthy e.replacement ∨ strTruthy e.text) then
      some (missingField "insert_method requires a non-empty 'replacement'.")
    else
      let pos := pyLowerStr (firstTruthyStr [e.position])
      if pos = "after" ∧ ¬ strTruthy e.afterMethodName then
        some (missingField "insert_method with position='after' requires 'afterMethodName'.")
      else if pos = "before" ∧ ¬ strTruthy e.beforeMethodName then
        some (missingField "insert_method with position='before' requires 'beforeMethodName'.")
      else none
  else if op = "delete_method" then
    if ¬ strTruthy e.methodName then
      some (missingField "delete_method requires 'methodName'.")
    else none
  else if op = "anchor_insert" ∨ op = "anchor_replace" ∨ op = "anchor_delete" then
    if ¬ patTruthy e.anchor then
      some (missingField (op ++ " requires 'anchor' (regex)."))
    else if (op = "anchor_insert" ∨ op = "anchor_replace")
        ∧ ¬ (strTruthy e.text ∨ strTruthy e.replacement) then
      some (missingField (op ++ " requires 'text'."))
    else none
  else none

/-- The validation loop: first failing edit wins. -/
def validateEdits : List Edit → Option Result
  | [] => none
  | e :: rest =>
    match validateOne e with
    | some r => some r
    | none => validateEdits rest

/-! ## Replacement templates and `re.sub` -/

/-- Whether a replacement template contains a `$n` reference with `n ≥ 1`
(under `_DOLLAR_BACKREF_PATTERN = \$(\d+)`).  With the group-less patterns
of `APat`, such a reference is an unknown-group error.  The scan is a state
machine: the flag records whether the scan is inside a `$`-digit run whose
digits so far are all `0`; a run has value ≥ 1 iff it contains a non-zero
digit. -/
def templateBadGroupAux : Bool → List Char → Bool
  | _, [] => false
  | inRun, c :: rest =>
    if inRun ∧ c.isDigit then
      (if c = '0' then templateBadGroupAux true rest else true)
    else templateBadGroupAux (c = '$') rest

def templateBadGroup (l : List Char) : Bool := templateBadGroupAux false l

/-- Expand `$0` (the whole match) in a template already known to contain no
`$n` with `n ≥ 1`.  `fuel` is structural-recursion fuel; call sites pass
`l.length + 1`. -/
def expand0Fuel (matched : List Char) : Nat → List Char → List Char
  | 0, _ => []
  | _ + 1, [] => []
  | fuel + 1, '$' :: rest =>
    match rest.takeWhile Char.isDigit with
    | [] => '$' :: expand0Fuel matched fuel rest
    | _ :: _ => matched ++ expand0Fuel matched fuel (rest.dropWhile Char.isDigit)
  | fuel + 1, c :: rest => c :: expand0Fuel matched fuel rest

def expand0 (matched : List Char) (l : List Char) : List Char :=
  expand0Fuel matched (l.length + 1) l

/-- Rebuild a buffer around a sorted list of non-overlapping match spans,
replacing each span by the expansion of the template. -/
def spliceAllAux (t : List Char) (repl : List Char) (pos : Nat) : List Mtch → List Char
  | [] => t.drop pos
  | m :: rest =>
    ((t.drop pos).take (m.start - pos)) ++
      expand0 ((t.drop m.start).take (m.stop - m.start)) repl ++
      spliceAllAux t repl m.stop rest

/-- Model of `re.sub(pattern, repl_py, text, count=count, flags=flags)` after the
`$n → \g<n>` translation of `apply_edits_locally` (utils.py lines 257-266).
Python validates the template's group references when `sub` starts (before
any replacement), so a `$n`, `n ≥ 1`, errors even with zero matches; a
negative count performs no replacement. -/
def pySub (p : APat) (ic : Bool) (repl : List Char) (count : Int) (t : List Char) :
    Except String (List Char) :=
  match finditer p ic t with
  | .error _ => .error "bad pattern"
  | .ok ms =>
    if templateBadGroup repl then .error "invalid group reference"
    else
      let ms := if count = 0 then ms else if count < 0 then [] else ms.take count.toNat
      .ok (spliceAllAux t repl 0 ms)

/-! ## `apply_edits_locally` (utils.py lines 192-271) -/

def allowedOps : String := "anchor_insert, prepend, append, replace_range, regex_replace"

/-- One iteration of the edit loop of `apply_edits_locally`; a Python
exception is `Except.error` carrying the raised message. -/
def applyOneLocal (t : List Char) (edit : Edit) : Except String (List Char) :=
  let op := opTagFull edit
  if op = "" then
    .error ("op is required; allowed: " ++ allowedOps ++
      ". Use 'op' (aliases accepted: type/mode/operation).")
  else if op = "prepend" then
    let pt := (edit.text.getD "").toList
    .ok ((if pt.getLast? = some '\n' then pt else pt ++ ['\n']) ++ t)
  else if op = "append" then
    let apt := (edit.text.getD "").toList
    let t1 := if t.getLast? = some '\n' then t else t ++ ['\n']
    let t2 := t1 ++ apt
    .ok (if t2.getLast? = some '\n' then t2 else t2 ++ ['\n'])
  else if op = "anchor_insert" then
    let anchor := edit.anchor.getD (.lit "")
    let pos := pyLowerStr (firstTruthyStr [edit.position, some "before"])
    let insertText := (edit.text.getD "").toList
    let ic := edit.ignore_case.getD false
    let pl := edit.prefer_last.getD true
    match findBestAnchorMatch anchor ic t pl with
    | .error _ => .error "bad pattern"
    | .ok none =>
      if edit.allow_noop.getD true then .ok t
      else .error ("anchor not found: " ++ anchor.text)
    | .ok (some m) =>
      let idx := if pos = "before" then m.start else m.stop
      .ok (t.take idx ++ insertText ++ t.drop idx)
  else if op = "replace_range" then
    let sl := edit.startLine.getD 1
    let sc := edit.startCol.getD 1
    let el := edit.endLine.getD sl
    let ec := edit.endCol.getD 1
    let repl := (edit.text.getD "").toList
    let lines := splitLinesKeep t
    let maxLine : Int := (lines.length : Int) + 1
    if sl < 1 ∨ el < sl ∨ el > maxLine ∨ sc < 1 ∨ ec < 1 then
      .error "replace_range out of bounds"
    else
      let idxOf : Int → Int → Nat := fun line col =>
        if line ≤ (lines.length : Int) then
          ((lines.take (line.toNat - 1)).map List.length).sum + (col.toNat - 1)
        else ((lines.map List.length).sum)
      let a := idxOf sl sc
      let b := idxOf el ec
      .ok (t.take a ++ repl ++ t.drop b)
  else if op = "regex_replace" then
    let p := edit.pattern.getD (.lit "")
    let repl := (edit.replacement.getD "").toList
    let cnt := edit.count.getD 0
    let ic := edit.ignore_case.getD false
    pySub p ic repl cnt t
  else
    .error ("unknown edit op: " ++ op ++ "; allowed: " ++ allowedOps ++
      ". Use 'op' (aliases accepted: type/mode/operation).")

def applyEditsLocallyL (t : List Char) : List Edit → Except String (List Char)
  | [] => .ok t
  | e :: rest => do
    let t' ← applyOneLocal t e
    applyEditsLocallyL t' rest

/-- Model of `apply_edits_locally(original_text, edits)`. -/
def applyEditsLocally (t : String) (edits : List Edit) : Except String String :=
  (applyEditsLocallyL t.toList edits).map String.mk

/-! ## The dispatch pipeline of `script_apply_edits`
(script_apply_edits.py lines 242-758, modelled from line 266 onward: JSON
payload parsing and `normalize_script_locator` concern the wire format and
path munging of the locator only, outside the edit pipeline). -/

/-- The recognized options (`preview`/`confirm` are read with Python
truthiness, so they are plain `Bool`s; the string options are absent-able). -/
structure Opts where
  preview : Bool := false
  confirm : Bool := false
  refresh : Option String := none
  validate : Option String := none
  applyMode : Option String := none
deriving DecidableEq, Repr

/-- A concrete `TextSpanEdit` destined for `apply_text_edits`. -/
structure Span where
  startLine : Int
  startCol : Int
  endLine : Int
  endCol : Int
  newText : String
deriving DecidableEq, Repr

/-- The change-sets this engine sends to the remote Unity editor, in
dispatch order.  `applyTextEdits` carries the span list, the
`precondition_sha256` value, and the `applyMode`/`refresh`/`validate`
options; `editBatch` is the structured `action="edit"` change-set with its
effective refresh option. -/
inductive Dispatch
  | read
  | applyTextEdits (spans : List Span) (precondition : String)
      (applyMode : String) (refresh : String) (validate : String)
  | editBatch (edits : List Edit) (refresh : String)
deriving DecidableEq, Repr

/-- The remote editor's response to the initial `action="read"`. -/
inductive ReadResp
  | fail (r : Result)
  | okNone
  | ok (contents : String)
deriving DecidableEq, Repr

/-- The remote editor as an oracle: its read response and the responses it
returns for dispatched text/structured writes. -/
structure Remote where
  read : ReadResp
  writeTextResp : Result
  writeStructResp : Result
deriving DecidableEq, Repr

/-- Model of `_with_norm(resp, edits, routing)` (lines 40-47): attach
`normalizedEdits` (presence recorded by `hasNormalized`) and overwrite the
routing label when one is given. -/
def withNorm (r : Result) (routing : Option String) : Result :=
  let r1 := { r with hasNormalized := true }
  match routing with
  | some s => { r1 with routing := some s }
  | none => r1

/-- An `_err(code, message, normalized=…)` payload (without
expected/rewrite). -/
def errResult (code msg : String) : Result :=
  { success := false, code := some code, message := msg, hasNormalized := true }

/-- Line 509: the catch-all of the mixed-path conversion. -/
def convFailedMixed : Result :=
  { success := false, message := "Text edit conversion failed" }

/-- Line 671: the catch-all of the pure-text conversion. -/
def convFailedText : Result :=
  { success := false, code := some "conversion_failed", message := "Edit conversion failed" }

/-- The `STRUCT` set of the routing decision (lines 337-338). -/
def STRUCT_OPS : List String :=
  ["replace_class", "delete_class", "replace_method", "delete_method",
   "insert_method", "anchor_delete", "anchor_replace", "anchor_insert"]

/-- The `TEXT` set of the routing decision (line 339). -/
def TEXT_OPS : List String := ["prepend", "append", "replace_range", "regex_replace"]

/-- Model of `structured_kinds` of the pure-text branch guard (lines 541-542); note
it differs from `STRUCT_OPS` (no anchor_delete/anchor_replace). -/
def STRUCTURED_KINDS : List String :=
  ["replace_class", "delete_class", "replace_method", "delete_method",
   "insert_method", "anchor_insert"]

/-- Model of `line_col_from_index(idx)` (lines 401-406 / 548-554): 1-based line and
column of a character offset against the fixed snapshot. -/
def lineColFromIndex (base : List Char) (idx : Nat) : Nat × Nat :=
  let line := ((base.take idx).countP (fun c => c = '\n')) + 1
  match ((List.range idx).filter (fun j => base.get? j = some '\n')).getLast? with
  | some lastNl => (line, (idx - (lastNl + 1)) + 1)
  | none => (line, idx + 1)

/-- Model of `_expand_dollars` (lines 461-462 / 621-622): expand `$N` references in
the replacement against the found match; with the group-less patterns of
`APat`, `$0` is the whole match and `$n`, `n ≥ 1`, raises (to be caught by
the enclosing conversion handler). -/
def expandConv (matched : List Char) (repl : List Char) : Except Unit (List Char) :=
  if templateBadGroup repl then .error () else .ok (expand0 matched repl)

/-- Span conversion for one text operation on the MIXED path (lines
409-485).  All spans are computed against the fixed snapshot (`base_text` is
deliberately never mutated); a `regex_replace` without a match contributes
no span (the `continue`). -/
def convertMixedOne (base : List Char) (e : Edit) : Except Result (List Span) :=
  let opx := opTagFull e
  let textField := firstTruthyStr [e.text, e.insert, e.content, e.replacement]
  if opx = "anchor_insert" then
    let anchor := if patTruthy e.anchor then e.anchor.getD (.lit "") else .lit ""
    let position := pyLowerStr (firstTruthyStr [e.position, some "after"])
    match findBestAnchorMatch anchor (e.ignore_case.getD false) base true with
    | .error _ => .error (errResult "bad_regex" "Invalid anchor regex")
    | .ok none => .error { success := false, code := some "anchor_not_found",
                           message := "anchor not found: " ++ anchor.text }
    | .ok (some m) =>
      let idx := if position = "before" then m.start else m.stop
      let tf1 := if ¬ strStartsWith textField "\n" then "\n" ++ textField else textField
      let tf2 := if ¬ strEndsWith tf1 "\n" then tf1 ++ "\n" else tf1
      let lc := lineColFromIndex base idx
      .ok [⟨lc.1, lc.2, lc.1, lc.2, tf2⟩]
  else if opx = "replace_range" then
    if e.startLine.isSome ∧ e.startCol.isSome ∧ e.endLine.isSome ∧ e.endCol.isSome then
      .ok [⟨e.startLine.getD 1, e.startCol.getD 1, e.endLine.getD 1, e.endCol.getD 1, textField⟩]
    else
      .error (errResult "missing_field" "replace_range requires startLine/startCol/endLine/endCol")
  else if opx = "regex_replace" then
    let pattern := if patTruthy e.pattern then e.pattern.getD (.lit "") else .lit ""
    match finditer pattern (e.ignore_case.getD false) base with
    | .error _ => .error (errResult "bad_regex" "Invalid regex pattern")
    | .ok ms =>
      match ms.head? with
      | none => .ok []
      | some m =>
        match expandConv ((base.drop m.start).take (m.stop - m.start)) textField.toList with
        | .error _ => .error convFailedMixed
        | .ok repl =>
          let slc := lineColFromIndex base m.start
          let elc := lineColFromIndex base m.stop
          .ok [⟨slc.1, slc.2, elc.1, elc.2, String.mk repl⟩]
  else if opx = "prepend" then
    .ok [⟨1, 1, 1, 1, textField⟩]
  else if opx = "append" then
    let lc := lineColFromIndex base base.length
    let newText := (if base.getLast? ≠ some '\n' then "\n" else "") ++ textField
    .ok [⟨lc.1, lc.2, lc.1, lc.2, newText⟩]
  else
    .error (errResult "unknown_op" ("Unsupported text edit op: " ++ opx))

/-- The mixed-path span-building loop over the text operations, with its
early returns. -/
def mixedConvert (base : List Char) : List Edit → Except Result (List Span)
  | [] => .ok []
  | e :: rest => do
    let s ← convertMixedOne base e
    let more ← mixedConvert base rest
    pure (s ++ more)

/-- Span conversion for one operation on the PURE-TEXT path (lines 557-636).
Differences from the mixed path, per the source: the text field does not
fall back to `replacement`; anchor-insert newline normalization applies only
to non-empty text; `regex_replace` locates its span via
`find_best_anchor_match` (prefer-last) rather than the first match; only the
presence of `startLine` is checked for `replace_range`; any other op
(including prepend/append) errors with `unsupported_op`. -/
def convertTextOne (base : List Char) (e : Edit) : Except Result (List Span) :=
  let op := opTagFull e
  let textField := firstTruthyStr [e.text, e.insert, e.content]
  if op = "anchor_insert" then
    let anchor := if patTruthy e.anchor then e.anchor.getD (.lit "") else .lit ""
    let position := pyLowerStr (firstTruthyStr [e.position, some "after"])
    match findBestAnchorMatch anchor (e.ignore_case.getD false) base true with
    | .error _ => .error (errResult "bad_regex" "Invalid anchor regex")
    | .ok none => .error { success := false, code := some "anchor_not_found",
                           message := "anchor not found: " ++ anchor.text }
    | .ok (some m) =>
      let idx := if position = "before" then m.start else m.stop
      let tf1 := if textField ≠ "" ∧ ¬ strStartsWith textField "\n" then "\n" ++ textField else textField
      let tf2 := if tf1 ≠ "" ∧ ¬ strEndsWith tf1 "\n" then tf1 ++ "\n" else tf1
      let lc := lineColFromIndex base idx
      .ok [⟨lc.1, lc.2, lc.1, lc.2, tf2⟩]
  else if op = "replace_range" then
    if e.startLine.isSome then
      .ok [⟨e.startLine.getD 1, e.startCol.getD 1, e.endLine.getD 1, e.endCol.getD 1, textField⟩]
    else
      .error { success := false, code := some "missing_field",
               message := "replace_range requires startLine/startCol/endLine/endCol" }
  else if op = "regex_replace" then
    let pattern := if patTruthy e.pattern then e.pattern.getD (.lit "") else .lit ""
    let ic := e.ignore_case.getD false
    match finditer pattern ic base with
    | .error _ => .error (errResult "bad_regex" "Invalid regex pattern")
    | .ok _ =>
      match findBestAnchorMatch pattern ic base true with
      | .error _ => .error convFailedText
      | .ok none => .ok []
      | .ok (some m) =>
        match expandConv ((base.drop m.start).take (m.stop - m.start)) textField.toList with
        | .error _ => .error convFailedText
        | .ok repl =>
          let slc := lineColFromIndex base m.start
          let elc := lineColFromIndex base m.stop
          .ok [⟨slc.1, slc.2, elc.1, elc.2, String.mk repl⟩]
  else
    .error { success := false, code := some "unsupported_op",
             message := "Unsupported text edit op for server-side apply_text_edits: " ++ op }

/-- The pure-text-path span-building loop, with its early returns. -/
def textConvert (base : List Char) : List Edit → Except Result (List Span)
  | [] => .ok []
  | e :: rest => do
    let s ← convertTextOne base e
    let more ← textConvert base rest
    pure (s ++ more)

/-- The mixed (TEXT + STRUCT) dispatch branch (lines 393-534): build spans
against the original snapshot, dispatch them as one hash-guarded text
change-set, then dispatch the structured remainder. -/
def mixedPath (hashFn : String → String) (remote : Remote) (contents : String)
    (edits : List Edit) (opts : Opts) : Result × List Dispatch :=
  let textEdits := edits.filter (fun e => TEXT_OPS.contains (opTagShort e))
  let structEdits := edits.filter (fun e => STRUCT_OPS.contains (opTagShort e))
  let proceed : List Dispatch → Result × List Dispatch := fun ds =>
    if structEdits.isEmpty then
      (withNorm { success := true, message := "Applied text edits (no structured ops)" }
        (some "mixed/text-first"), ds)
    else
      (withNorm remote.writeStructResp (some "mixed/text-first"),
        ds ++ [Dispatch.editBatch structEdits (opts.refresh.getD "debounced")])
  match mixedConvert contents.toList textEdits with
  | .error r => (withNorm r (some "mixed/text-first"), [.read])
  | .ok atEdits =>
    if atEdits.isEmpty then proceed [.read]
    else
      let d := Dispatch.applyTextEdits atEdits (hashFn contents)
        (if atEdits.length > 1 then "atomic" else opts.applyMode.getD "sequential")
        (opts.refresh.getD "debounced") (opts.validate.getD "standard")
      if ¬ remote.writeTextResp.success then
        (withNorm remote.writeTextResp (some "mixed/text-first"), [.read, d])
      else proceed [.read, d]

/-- The pure-text conversion-and-dispatch branch (lines 544-671). -/
def textPath (hashFn : String → String) (remote : Remote) (contents : String)
    (edits : List Edit) (opts : Opts) : Result × List Dispatch :=
  match textConvert contents.toList edits with
  | .error r => (withNorm r (some "text"), [.read])
  | .ok atEdits =>
    if atEdits.isEmpty then
      (withNorm { success := false, code := some "no_spans",
                  message := "No applicable text edit spans computed (anchor not found or zero-length)." }
        (some "text"), [.read])
    else
      let d := Dispatch.applyTextEdits atEdits (hashFn contents)
        (if atEdits.length > 1 then "atomic" else opts.applyMode.getD "sequential")
        (opts.refresh.getD "debounced") (opts.validate.getD "standard")
      (withNorm remote.writeTextResp (some "text"), [.read, d])

def joinNl (l : List String) : String := String.intercalate "\n" l

/-- Lines 673-758: the regex-replace preview/confirm rail, local
application, no-op detection, the local preview diff, and the whole-file
write.  (This region is unreachable: entering it requires an all-text batch
whose resolved tags all lie in `STRUCTURED_KINDS` — see
`tailPathUnreachable` below.)  In the final whole-file dispatch the source
passes the caller's options through, so `applyMode` stays whatever the
caller set (modelled by the `"unset"` default). -/
def tailPath (hashFn : String → String)
    (diffFn : Nat → List String → List String → List String)
    (remote : Remote) (contents : String) (edits : List Edit) (opts : Opts) :
    Result × List Dispatch :=
  let textOps := edits.map opTagFull
  if textOps.contains "regex_replace" ∧ (opts.preview ∨ ¬ opts.confirm) then
    match applyEditsLocally contents edits with
    | .error _ =>
      (withNorm { success := false, code := some "preview_failed",
                  message := "Preview failed" } (some "text"), [.read])
    | .ok previewText =>
      let diff := diffFn 2 ((splitLines contents.toList).map String.mk)
        ((splitLines previewText.toList).map String.mk)
      let diff := if diff.length > 800 then diff.take 800 ++ ["... (diff truncated) ..."] else diff
      if opts.preview then
        ({ success := true, message := "Preview only (no write)",
           diff := some (joinNl diff), hasNormalized := true }, [.read])
      else
        (withNorm { success := false, message := "Preview diff; set options.confirm=true to apply.",
                    diff := some (joinNl diff) } (some "text"), [.read])
  else
    match applyEditsLocally contents edits with
    | .error _ => ({ success := false, message := "Edit application failed" }, [.read])
    | .ok newContents =>
      if newContents = contents then
        (withNorm { success := true, message := "No-op: contents unchanged", noOp := true }
          (some "text"), [.read])
      else if opts.preview then
        let diff := diffFn 3 ((splitLines contents.toList).map String.mk)
          ((splitLines newContents.toList).map String.mk)
        let diff := if diff.length > 2000 then diff.take 2000 ++ ["... (diff truncated) ..."] else diff
        ({ success := true, message := "Preview only (no write)",
           diff := some (joinNl diff), hasNormalized := true }, [.read])
      else
        let endLine : Int := ((splitLinesKeep contents.toList).length : Int) + 1
        let d := Dispatch.applyTextEdits [⟨1, 1, endLine, 1, newContents⟩] (hashFn contents)
          (opts.applyMode.getD "unset") (opts.refresh.getD "debounced") (opts.validate.getD "standard")
        (withNorm remote.writeTextResp (some "text"), [.read, d])

/-- Everything `script_apply_edits` does from edit normalization onward
(lines 266-758): normalization, required-field validation, routing, span
conversion and dispatch.  `hashFn` stands for
`hashlib.sha256(text.encode()).hexdigest()` and `diffFn n a b` for
`list(difflib.unified_diff(a, b, fromfile="before", tofile="after", n=n))`;
both are engine-external primitives taken as parameters.  The second
component records the change-sets dispatched to the remote editor in
order. -/
def scriptApplyEdits (hashFn : String → String)
    (diffFn : Nat → List String → List String → List String)
    (remote : Remote) (scriptName : String) (rawEdits : List Edit) (opts : Opts) :
    Result × List Dispatch :=
  let edits := normalizeEdits scriptName rawEdits
  match validateEdits edits with
  | some err => (err, [])
  | none =>
    let allStruct := edits.all (fun e => STRUCT_OPS.contains (opTagShort e))
    let allText := edits.all (fun e => TEXT_OPS.contains (opTagShort e))
    if allStruct then
      (withNorm remote.writeStructResp (some "structured"),
        [Dispatch.editBatch edits (opts.refresh.getD "immediate")])
    else
      match remote.read with
      | .fail r => (r, [.read])
      | .okNone =>
        ({ success := false, message := "No contents returned from Unity read." }, [.read])
      | .ok contents =>
        if ¬ allText then
          mixedPath hashFn remote contents edits opts
        else if ¬ edits.all (fun e => STRUCTURED_KINDS.contains (opTagFull e)) then
          textPath hashFn remote contents edits opts
        else
          tailPath hashFn diffFn remote contents edits opts

/-! ## Specification-shaped definitions and concrete fixtures
(for the claim theorems below; the executable definitions above are the
embedding of the source, these are the comparison points and inputs). -/

/-- The per-match score exactly as claim C7 words it: indentation and
distance components, a flat bonus, and minus 5 per method-signature line in
"the window of 3 lines before and 2 lines after the match line" — read as
lines `n-3` through `n+2`. -/
def claimedSpecScore (t : List Char) (m : Mtch) : Int :=
  let lines := splitLines t
  let n := lineNumOf (lineStartsOf t) m.start
  if n < lines.length then
    let line := lines.getD n []
    let ind : Nat := countLeadingWs line
    let dist : Nat := lines.length - n
    max 0 (20 - (ind : Int)) + max 0 (10 - (dist : Int))
      - 5 * (((lines.take (n + 3)).drop (n - 3)).countP (fun l => sigSearch l) : Int)
      + (if ind ≤ 4 ∧ dist ≤ 3 then 15 else 0)
  else 0

/-- The same score with the window the code actually uses: the Python slice
`lines[max(0, n-3) : min(len(lines), n+2)]`, i.e. lines `n-3` through `n+1`
(three before, the match line itself, and one after). -/
def correctedSpecScore (t : List Char) (m : Mtch) : Int :=
  let lines := splitLines t
  let n := lineNumOf (lineStartsOf t) m.start
  if n < lines.length then
    let line := lines.getD n []
    let ind : Nat := countLeadingWs line
    let dist : Nat := lines.length - n
    max 0 (20 - (ind : Int)) + max 0 (10 - (dist : Int))
      - 5 * (((lines.take (min lines.length (n + 2))).drop (n - 3)).countP (fun l => sigSearch l) : Int)
      + (if ind ≤ 4 ∧ dist ≤ 3 then 15 else 0)
  else 0

/-- First element attaining the maximal score under `f` — the claimed
selection rule "highest score wins, ties broken by first-found order". -/
def argmaxFirstAux (f : Mtch → Int) (best : Mtch) : List Mtch → Mtch
  | [] => best
  | x :: rest => if f x > f best then argmaxFirstAux f x rest else argmaxFirstAux f best rest

def argmaxFirst (f : Mtch → Int) : List Mtch → Option Mtch
  | [] => none
  | m :: rest => some (argmaxFirstAux f m rest)

/-- Identity stand-in for the SHA-256 hex digest parameter in concrete runs
(the digest internals are outside the engine; every claim only needs that
the precondition is a function of the snapshot). -/
def idHash : String → String := fun s => s

/-- Trivial stand-in for the unified-diff parameter in concrete runs (only
dead code consumes it). -/
def noDiff : Nat → List String → List String → List String := fun _ _ _ => []

/-- A remote editor that successfully serves the snapshot `"abc"` and
acknowledges every write. -/
def remoteOK : Remote :=
  { read := .ok "abc",
    writeTextResp := { success := true, message := "applied" },
    writeStructResp := { success := true, message := "edited" } }

/-- A remote editor whose read fails. -/
def remoteReadFail : Remote :=
  { read := .fail { success := false, message := "read failed" },
    writeTextResp := { success := true, message := "applied" },
    writeStructResp := { success := true, message := "edited" } }

/-- A well-formed replace_range edit replacing the first character by "Z". -/
def rrEdit : Edit :=
  { op := some "replace_range", startLine := some 1, startCol := some 1,
    endLine := some 1, endCol := some 2, text := some "Z" }

/-- A regex_replace edit replacing the first "b" by "X". -/
def rxEdit : Edit :=
  { op := some "regex_replace", pattern := some (.lit "b"), text := some "X" }

/-- A regex_replace edit replacing "b" by itself — a byte-identical no-op. -/
def rxNoopEdit : Edit :=
  { op := some "regex_replace", pattern := some (.lit "b"), text := some "b" }

/-- A prepend edit (a member of the text family). -/
def ppEdit : Edit := { op := some "prepend", text := some "x" }

/-- A well-formed structured replace_method edit. -/
def rmEdit : Edit :=
  { op := some "replace_method", methodName := some "M", replacement := some "body" }

/-- The replace_range edit of the C9 example: an insertion of "A" at the
very start. -/
def rrInsEdit : Edit :=
  { op := some "replace_range", startLine := some 1, startCol := some 1,
    endLine := some 1, endCol := some 1, text := some "A" }

/-- An anchor_insert whose anchor matches nothing in the buffer "abc". -/
def anchMissEdit : Edit :=
  { op := some "anchor_insert", anchor := some (.lit "zzz"), text := some "T" }

/-- A prepend edit used as the continuation after `anchMissEdit`. -/
def prependQEdit : Edit := { op := some "prepend", text := some "Q" }

/-- C7 counterexample buffer: two `^[ ]*\}$` matches — line 0 (`"}"`,
indentation 0, distance 10) and line 9 (nine spaces + `}`, indentation 9,
distance 1) — with a method signature exactly two lines below the first
match, outside the slice the code scans but inside the window the claim
states. -/
def cbuf : String := "\x7d\nx\npublic void M() \x7b\nx\nx\nx\nx\nx\nx\n         \x7d"

/-- The two matches `re.finditer` yields on `cbuf` for `^[ ]*\}$`. -/
def cbufMatches : List Mtch := [⟨0, 1⟩, ⟨34, 44⟩]

/-- C7 scenario buffer: two same-indentation closing braces, the first
followed by trailing method-signature-like lines, the second at true end of
file. -/
def sbuf : String := "class C \x7b\n\x7d\npublic void Trailing() \x7b\nx\n\x7d"

/-- The buffer offset of a 1-based line/column pair, obtained by summing
the lengths of the prior keepends-lines (claim C9 conversion). -/
def lineColOffset (t : List Char) (line col : Int) : Nat :=
  let lines := splitLinesKeep t
  if line ≤ (lines.length : Int) then
    ((lines.take (line.toNat - 1)).map List.length).sum + (col.toNat - 1)
  else ((lines.map List.length).sum)

/-- A replace_range edit with the given integer coordinates and text. -/
def mkRR (sl sc el ec : Int) (txt : String) : Edit :=
  { op := some "replace_range", startLine := some sl, startCol := some sc,
    endLine := some el, endCol := some ec, text := some txt }

/-- The spans the pure-text conversion computes for `[rrEdit, rxEdit]` on
snapshot "abc". -/
def c5spans : List Span := [⟨1, 1, 1, 2, "Z"⟩, ⟨1, 2, 1, 3, "X"⟩]

/-! ## Claim theorems -/

/-! ### Helper lemmas -/

theorem toLower_eq_self_of_pyIsSpace {c : Char} (h : pyIsSpace c = true) : c.toLower = c := by
  simp only [pyIsSpace, Bool.or_eq_true, decide_eq_true_eq] at h
  rcases h with ((((h | h) | h) | h) | h) | h <;> subst h <;> decide

theorem dropWhile_eq_self_of_head {p : Char → Bool} {l : List Char}
    (h : ∀ c ∈ l, p c = false) : l.dropWhile p = l := by
  cases l with
  | nil => rfl
  | cons a l =>
    rw [List.dropWhile_cons]
    simp [h a (by simp)]

theorem pyStrip_eq_self {l : List Char} (h : ∀ c ∈ l, pyIsSpace c = false) :
    pyStrip l = l := by
  unfold pyStrip
  rw [dropWhile_eq_self_of_head h]
  rw [dropWhile_eq_self_of_head (fun c hc => h c (List.mem_reverse.mp hc))]
  exact List.reverse_reverse l

theorem pyStrip_of_lowerL_eq {l tgt : List Char} (h : lowerL l = tgt)
    (htgt : ∀ d ∈ tgt, pyIsSpace d = false) : pyStrip l = l := by
  apply pyStrip_eq_self
  intro c hc
  by_contra hcs
  have hcs' : pyIsSpace c = true := by revert hcs; cases pyIsSpace c <;> simp
  have h2 : c.toLower ∈ tgt := by
    rw [← h]
    exact List.mem_map_of_mem Char.toLower hc
  rw [toLower_eq_self_of_pyIsSpace hcs'] at h2
  rw [htgt c h2] at hcs'
  exact Bool.false_ne_true hcs'

theorem contains_TEXT_OPS_iff {s : String} :
    TEXT_OPS.contains s = true ↔
      s = "prepend" ∨ s = "append" ∨ s = "replace_range" ∨ s = "regex_replace" := by
  simp [TEXT_OPS, List.contains]

theorem stripLower_eq_pyLowerStr_of_text {s : String}
    (h : TEXT_OPS.contains (pyLowerStr s) = true) : stripLower s = pyLowerStr s := by
  have hmem := contains_TEXT_OPS_iff.mp h
  have hstrip : pyStrip s.toList = s.toList := by
    rcases hmem with h1 | h1 | h1 | h1 <;>
      exact pyStrip_of_lowerL_eq (congrArg String.toList h1) (by decide)
  unfold stripLower pyLowerStr
  rw [hstrip]

theorem opTagShort_ne_empty_of_text {e : Edit}
    (h : TEXT_OPS.contains (opTagShort e) = true) :
    ∃ s, e.op = some s ∧ s ≠ "" := by
  cases hop : e.op with
  | none =>
    rw [opTagShort, hop] at h
    exact absurd h (by decide)
  | some s =>
    refine ⟨s, rfl, ?_⟩
    intro hs
    rw [opTagShort, hop, hs] at h
    exact absurd h (by decide)

theorem opTagFull_eq_opTagShort_of_text {e : Edit}
    (h : TEXT_OPS.contains (opTagShort e) = true) : opTagFull e = opTagShort e := by
  obtain ⟨s, hop, hs⟩ := opTagShort_ne_empty_of_text h
  rw [opTagShort, hop] at h ⊢
  rw [opTagFull, hop]
  simp only [firstTruthyStr, if_pos hs]
  rw [Option.getD_some]
  exact stripLower_eq_pyLowerStr_of_text h

theorem text_tag_not_structured_kind {s : String}
    (h : TEXT_OPS.contains s = true) : s ∉ STRUCTURED_KINDS := by
  rcases contains_TEXT_OPS_iff.mp h with h1 | h1 | h1 | h1 <;> subst h1 <;> decide

/-- The guard of the pure-text branch (source line 543) is satisfiable by no
all-text batch: the fall-through region of lines 673-758 is dead code. -/
theorem tailPathUnreachable {edits : List Edit}
    (hns : edits.all (fun e => STRUCT_OPS.contains (opTagShort e)) = false)
    (ht : edits.all (fun e => TEXT_OPS.contains (opTagShort e)) = true) :
    edits.all (fun e => STRUCTURED_KINDS.contains (opTagFull e)) = false := by
  rw [List.all_eq_false] at hns ⊢
  obtain ⟨e, he, _⟩ := hns
  refine ⟨e, he, ?_⟩
  have hte : TEXT_OPS.contains (opTagShort e) = true := by
    have := List.all_eq_true.mp ht e he
    simpa using this
  rw [opTagFull_eq_opTagShort_of_text hte]
  simpa [List.contains] using text_tag_not_structured_kind hte


/-- C1 (code_bug evidence): the spec says a request with `preview=true` on
the text path returns the diff and dispatches no write.  Evaluating the
engine at a pure-text batch (one well-formed replace_range) with
`preview=true`: an `apply_text_edits` change-set is dispatched anyway and
the returned result is the remote write response with no diff — the preview
short-circuits (source lines 389-390, 673-712) sit in code no pure-text or
mixed batch can reach. -/
theorem c1_preview_true_still_dispatches_write :
    (scriptApplyEdits idHash noDiff remoteOK "S" [rrEdit] { preview := true }).2 =
      [Dispatch.read,
       Dispatch.applyTextEdits [⟨1, 1, 1, 2, "Z"⟩] (idHash "abc") "sequential" "debounced" "standard"] ∧
    (scriptApplyEdits idHash noDiff remoteOK "S" [rrEdit] { preview := true }).1.diff = none ∧
    (scriptApplyEdits idHash noDiff remoteOK "S" [rrEdit] { preview := true }).1.routing = some "text" :=
  ⟨rfl, rfl, rfl⟩

/-- C2 (code_bug evidence): the spec says a purely-regex_replace batch with
neither `preview` nor `confirm` set is refused with a diff and a
confirm-instruction.  Evaluating the engine at such a batch: the
`regex_replace` is converted to a span and dispatched as a write, and the
result is the remote's success with no diff — the confirm rail (source
lines 673-687) is unreachable. -/
theorem c2_confirm_rail_unreachable :
    (scriptApplyEdits idHash noDiff remoteOK "S" [rxEdit] { }).2 =
      [Dispatch.read,
       Dispatch.applyTextEdits [⟨1, 2, 1, 3, "X"⟩] (idHash "abc") "sequential" "debounced" "standard"] ∧
    (scriptApplyEdits idHash noDiff remoteOK "S" [rxEdit] { }).1.success = true ∧
    (scriptApplyEdits idHash noDiff remoteOK "S" [rxEdit] { }).1.diff = none :=
  ⟨rfl, rfl, rfl⟩

/-- C3 (code_bug evidence): the spec says a batch whose application leaves
the buffer byte-identical short-circuits as a `no_op` success with no
write.  Evaluating the engine at a batch that provably applies to the
identical buffer (replacing "b" by "b"): a write is dispatched and the
result does not report `no_op` — the no-op check (source lines 694-700) is
unreachable. -/
theorem c3_noop_not_shortcircuited :
    applyEditsLocally "abc" (normalizeEdits "S" [rxNoopEdit]) = .ok "abc" ∧
    (scriptApplyEdits idHash noDiff remoteOK "S" [rxNoopEdit] { }).2 =
      [Dispatch.read,
       Dispatch.applyTextEdits [⟨1, 2, 1, 3, "b"⟩] (idHash "abc") "sequential" "debounced" "standard"] ∧
    (scriptApplyEdits idHash noDiff remoteOK "S" [rxNoopEdit] { }).1.noOp = false :=
  ⟨rfl, rfl, rfl⟩

/-- C4 counterexample: a pure-text batch whose snapshot read fails is an
outcome of the text path returned WITHOUT a routing label, refuting "the
chosen routing label is attached to the result data on every outcome of
that path". -/
theorem c4_read_failure_lacks_routing_label :
    (normalizeEdits "S" [rrEdit]).all (fun e => TEXT_OPS.contains (opTagShort e)) = true ∧
    (scriptApplyEdits idHash noDiff remoteReadFail "S" [rrEdit] { }).1.routing = none :=
  ⟨rfl, rfl⟩

/-- C5 counterexample: a pure-text batch consisting of a `prepend` — a
member of the text family — is NOT converted and dispatched; it returns
`unsupported_op` with no write, refuting "this holds for every member of
the text family, including prepend and append". -/
theorem c5_prepend_not_convertible :
    (normalizeEdits "S" [ppEdit]).all (fun e => TEXT_OPS.contains (opTagShort e)) = true ∧
    (scriptApplyEdits idHash noDiff remoteOK "S" [ppEdit] { }).1.code = some "unsupported_op" ∧
    (scriptApplyEdits idHash noDiff remoteOK "S" [ppEdit] { }).2 = [Dispatch.read] :=
  ⟨rfl, rfl, rfl⟩

/-- C7 counterexample: on `cbuf` the closing-brace pattern has two genuine
matches and the matcher returns the FIRST one, while the score formula as
the claim words it (window "3 lines before and 2 lines after") selects the
other: the claimed formula penalizes the first match for the signature two
lines below it, which the code's window does not scan. -/
theorem c7_claimed_window_refuted :
    finditer .spacesCloseBraceLine false cbuf.toList = .ok cbufMatches ∧
    isClosingBracePattern (APat.text .spacesCloseBraceLine) = true ∧
    findBestAnchorMatch .spacesCloseBraceLine false cbuf.toList true = .ok (some ⟨0, 1⟩) ∧
    argmaxFirst (claimedSpecScore cbuf.toList) cbufMatches = some ⟨34, 44⟩ ∧
    ((⟨0, 1⟩ : Mtch) ≠ ⟨34, 44⟩) :=
  ⟨rfl, rfl, rfl, rfl, by decide⟩

theorem withNorm_routing (r : Result) (s : String) : (withNorm r (some s)).routing = some s := rfl

theorem mixedPath_routing (hashFn : String → String) (remote : Remote) (contents : String)
    (edits : List Edit) (opts : Opts) :
    (mixedPath hashFn remote contents edits opts).1.routing = some "mixed/text-first" := by
  unfold mixedPath
  dsimp only
  split
  · rfl
  · split
    · split <;> rfl
    · split
      · rfl
      · split <;> rfl

theorem textPath_routing (hashFn : String → String) (remote : Remote) (contents : String)
    (edits : List Edit) (opts : Opts) :
    (textPath hashFn remote contents edits opts).1.routing = some "text" := by
  unfold textPath
  dsimp only
  split
  · rfl
  · split <;> rfl

/-- C4 (amended): for every request that passes validation, whenever the
snapshot read succeeds (and on the structured route unconditionally — it
never reads), the result carries exactly the routing label the claim's
classification assigns: `structured` when every tag lies in the structured
set, `text` when every tag lies in the text set, `mixed/text-first`
otherwise.  (The claim's "on every outcome of that path" fails only for the
read-failure outcomes, per the counterexample.) -/
theorem c4_routing_classification_and_label (hashFn : String → String)
    (diffFn : Nat → List String → List String → List String)
    (remote : Remote) (scriptName : String) (rawEdits : List Edit) (opts : Opts) (cts : String)
    (hv : validateEdits (normalizeEdits scriptName rawEdits) = none)
    (hr : remote.read = .ok cts) :
    (scriptApplyEdits hashFn diffFn remote scriptName rawEdits opts).1.routing =
      some (if (normalizeEdits scriptName rawEdits).all (fun e => STRUCT_OPS.contains (opTagShort e)) then
              "structured"
            else if (normalizeEdits scriptName rawEdits).all (fun e => TEXT_OPS.contains (opTagShort e)) then
              "text"
            else "mixed/text-first") := by
  unfold scriptApplyEdits
  simp only [hv]
  cases hs : (normalizeEdits scriptName rawEdits).all (fun e => STRUCT_OPS.contains (opTagShort e)) with
  | true => simp [hs, withNorm_routing]
  | false =>
    simp only [hr]
    cases ht : (normalizeEdits scriptName rawEdits).all (fun e => TEXT_OPS.contains (opTagShort e)) with
    | false => simp [hs, ht, mixedPath_routing]
    | true =>
      have hguard : ∃ x ∈ normalizeEdits scriptName rawEdits, opTagFull x ∉ STRUCTURED_KINDS := by
        simpa using List.all_eq_false.mp (tailPathUnreachable hs ht)
      simp [hs, ht, hguard, textPath_routing]

/-- Witness for C4: the concrete pure-text run carries the label the
classification assigns. -/
theorem c4_routing_classification_witness :
    (scriptApplyEdits idHash noDiff remoteOK "S" [rrEdit] { }).1.routing =
      some (if (normalizeEdits "S" [rrEdit]).all (fun e => STRUCT_OPS.contains (opTagShort e)) then
              "structured"
            else if (normalizeEdits "S" [rrEdit]).all (fun e => TEXT_OPS.contains (opTagShort e)) then
              "text"
            else "mixed/text-first") :=
  c4_routing_classification_and_label idHash noDiff remoteOK "S" [rrEdit] { } "abc" rfl rfl

theorem validateOne_none_of_rr_rx {e : Edit}
    (h : opTagShort e = "replace_range" ∨ opTagShort e = "regex_replace") :
    validateOne e = none := by
  have hop : ∀ s : String, s ∈ (["replace_method", "insert_method", "delete_method",
      "anchor_insert", "anchor_replace", "anchor_delete"] : List String) →
      e.op.getD "" ≠ s := by
    intro s hs heq
    rcases h with h | h <;>
      · rw [opTagShort, heq] at h
        fin_cases hs <;> exact absurd h (by decide)
  have h1 := hop "replace_method" (by simp)
  have h2 := hop "insert_method" (by simp)
  have h3 := hop "delete_method" (by simp)
  have h4 := hop "anchor_insert" (by simp)
  have h5 := hop "anchor_replace" (by simp)
  have h6 := hop "anchor_delete" (by simp)
  unfold validateOne
  simp [h1, h2, h3, h4, h5, h6]

theorem validateEdits_none {edits : List Edit} (h : ∀ e ∈ edits, validateOne e = none) :
    validateEdits edits = none := by
  induction edits with
  | nil => rfl
  | cons e rest ih =>
    unfold validateEdits
    rw [h e (by simp)]
    exact ih (fun x hx => h x (by simp [hx]))

theorem contains_TEXT_of_rr_rx {s : String}
    (h : s = "replace_range" ∨ s = "regex_replace") : TEXT_OPS.contains s = true := by
  rcases h with h | h <;> subst h <;> decide

theorem rr_rx_not_struct {s : String} (h : s = "replace_range" ∨ s = "regex_replace") :
    s ∉ STRUCT_OPS := by
  rcases h with h | h <;> subst h <;> decide

/-- When validation passes, the read succeeds, and the batch is all-text but
not all-structured, the pipeline lands in the pure-text conversion branch. -/
theorem scriptApplyEdits_eq_textPath (hashFn : String → String)
    (diffFn : Nat → List String → List String → List String)
    (remote : Remote) (scriptName : String) (rawEdits : List Edit) (opts : Opts) (cts : String)
    (hv : validateEdits (normalizeEdits scriptName rawEdits) = none)
    (hr : remote.read = .ok cts)
    (hs : (normalizeEdits scriptName rawEdits).all
      (fun e => STRUCT_OPS.contains (opTagShort e)) = false)
    (ht : (normalizeEdits scriptName rawEdits).all
      (fun e => TEXT_OPS.contains (opTagShort e)) = true) :
    scriptApplyEdits hashFn diffFn remote scriptName rawEdits opts =
      textPath hashFn remote cts (normalizeEdits scriptName rawEdits) opts := by
  have hg := tailPathUnreachable hs ht
  unfold scriptApplyEdits
  simp only [hv, hr, hs, ht, hg]
  simp

/-- With a successful conversion carrying at least one span, the pure-text
branch dispatches the read plus exactly one text change-set. -/
theorem textPath_dispatch {hashFn : String → String} {remote : Remote} {contents : String}
    {edits : List Edit} {opts : Opts} {spans : List Span}
    (hconv : textConvert contents.toList edits = .ok spans) (hspans : spans ≠ []) :
    (textPath hashFn remote contents edits opts).2 =
      [Dispatch.read,
       Dispatch.applyTextEdits spans (hashFn contents)
         (if spans.length > 1 then "atomic" else opts.applyMode.getD "sequential")
         (opts.refresh.getD "debounced") (opts.validate.getD "standard")] := by
  unfold textPath
  rw [hconv]
  simp [List.isEmpty_iff, hspans]

/-- C5 (amended): a non-empty batch whose every normalized tag is
`replace_range` or `regex_replace` — the pure-text operations the
conversion supports — is, when span conversion succeeds with at least one
span, dispatched as exactly ONE `apply_text_edits` change-set guarded by a
single precondition digest of the snapshot (atomic when more than one span).
Pure-text batches containing `prepend`/`append` are instead rejected with
`unsupported_op` and dispatch nothing (see the counterexample). -/
theorem c5_supported_text_batch_single_changeset (hashFn : String → String)
    (diffFn : Nat → List String → List String → List String)
    (remote : Remote) (scriptName : String) (rawEdits : List Edit) (opts : Opts)
    (cts : String) (spans : List Span)
    (hr : remote.read = .ok cts)
    (hne : rawEdits ≠ [])
    (hops : ∀ e ∈ normalizeEdits scriptName rawEdits,
      opTagShort e = "replace_range" ∨ opTagShort e = "regex_replace")
    (hconv : textConvert cts.toList (normalizeEdits scriptName rawEdits) = .ok spans)
    (hspans : spans ≠ []) :
    (scriptApplyEdits hashFn diffFn remote scriptName rawEdits opts).2 =
      [Dispatch.read,
       Dispatch.applyTextEdits spans (hashFn cts)
         (if spans.length > 1 then "atomic" else opts.applyMode.getD "sequential")
         (opts.refresh.getD "debounced") (opts.validate.getD "standard")] := by
  have hv : validateEdits (normalizeEdits scriptName rawEdits) = none :=
    validateEdits_none (fun e he => validateOne_none_of_rr_rx (hops e he))
  have hnn : normalizeEdits scriptName rawEdits ≠ [] := by
    cases hne' : rawEdits with
    | nil => exact absurd hne' hne
    | cons a l => simp [normalizeEdits, hne']
  obtain ⟨e0, he0⟩ : ∃ e0, e0 ∈ normalizeEdits scriptName rawEdits := by
    cases h : normalizeEdits scriptName rawEdits with
    | nil => exact absurd h hnn
    | cons a l => exact ⟨a, by simp [h]⟩
  have hs : (normalizeEdits scriptName rawEdits).all
      (fun e => STRUCT_OPS.contains (opTagShort e)) = false := by
    rw [List.all_eq_false]
    exact ⟨e0, he0, by simpa using rr_rx_not_struct (hops e0 he0)⟩
  have ht : (normalizeEdits scriptName rawEdits).all
      (fun e => TEXT_OPS.contains (opTagShort e)) = true := by
    rw [List.all_eq_true]
    intro e he
    simpa using contains_TEXT_of_rr_rx (hops e he)
  rw [scriptApplyEdits_eq_textPath hashFn diffFn remote scriptName rawEdits opts cts hv hr hs ht]
  exact textPath_dispatch hconv hspans

/-- Witness for C5: the two-edit batch `[rrEdit, rxEdit]` on snapshot "abc"
dispatches one atomic hash-guarded change-set with both spans. -/
theorem c5_supported_text_batch_witness :
    (scriptApplyEdits idHash noDiff remoteOK "S" [rrEdit, rxEdit] { }).2 =
      [Dispatch.read,
       Dispatch.applyTextEdits c5spans (idHash "abc")
         (if c5spans.length > 1 then "atomic" else ({} : Opts).applyMode.getD "sequential")
         (({} : Opts).refresh.getD "debounced") (({} : Opts).validate.getD "standard")] :=
  c5_supported_text_batch_single_changeset idHash noDiff remoteOK "S" [rrEdit, rxEdit] { }
    "abc" c5spans rfl (by decide) (by decide) rfl (by decide)

theorem mixedConvert_cons_ok {base : List Char} {x : Edit} {xs : List Edit} {s : List Span}
    (h : mixedConvert base (x :: xs) = .ok s) :
    ∃ w rest, convertMixedOne base x = .ok w ∧ mixedConvert base xs = .ok rest ∧ s = w ++ rest := by
  unfold mixedConvert at h
  cases hx : convertMixedOne base x with
  | error r => rw [hx] at h; simp [Bind.bind, Except.bind] at h
  | ok w =>
    rw [hx] at h
    cases hrest : mixedConvert base xs with
    | error r => rw [hrest] at h; simp [Bind.bind, Except.bind] at h
    | ok rest =>
      rw [hrest] at h
      simp only [Bind.bind, Except.bind, pure, Except.pure, Except.ok.injEq] at h
      exact ⟨w, rest, rfl, rfl, h.symm⟩

theorem mixedConvert_append_ok {base : List Char} {xs ys : List Edit} {s : List Span}
    (h : mixedConvert base (xs ++ ys) = .ok s) :
    ∃ u v, mixedConvert base xs = .ok u ∧ mixedConvert base ys = .ok v ∧ s = u ++ v := by
  induction xs generalizing s with
  | nil => exact ⟨[], s, rfl, h, rfl⟩
  | cons x xs ih =>
    rw [List.cons_append] at h
    obtain ⟨w, rest, hw, hrest, hs⟩ := mixedConvert_cons_ok h
    obtain ⟨u, v, hu, hv, huv⟩ := ih hrest
    refine ⟨w ++ u, v, ?_, hv, by simp [hs, huv]⟩
    unfold mixedConvert
    rw [hw, hu]
    rfl

/-- C6: in the mixed path, every text operation is converted against the
original snapshot only: the spans contributed by a given text operation are
exactly the spans its SINGLETON conversion yields — identical across any
two batches containing it, whatever other (text or structured) operations
surround it. -/
theorem c6_mixed_spans_snapshot_independent (cts : String) (e : Edit)
    (pre1 post1 pre2 post2 : List Edit) (s1 s2 : List Span)
    (hetext : TEXT_OPS.contains (opTagShort e) = true)
    (h1 : mixedConvert cts.toList
      ((pre1 ++ e :: post1).filter (fun x => TEXT_OPS.contains (opTagShort x))) = .ok s1)
    (h2 : mixedConvert cts.toList
      ((pre2 ++ e :: post2).filter (fun x => TEXT_OPS.contains (opTagShort x))) = .ok s2) :
    ∃ w, convertMixedOne cts.toList e = .ok w ∧
      (∃ u v, s1 = u ++ w ++ v) ∧ (∃ u v, s2 = u ++ w ++ v) := by
  simp only [List.filter_append, List.filter_cons, hetext, if_true] at h1 h2
  obtain ⟨u1, v1, hu1, hv1, hs1⟩ := mixedConvert_append_ok h1
  obtain ⟨w1, r1, hw1, hr1, hv1'⟩ := mixedConvert_cons_ok hv1
  obtain ⟨u2, v2, hu2, hv2, hs2⟩ := mixedConvert_append_ok h2
  obtain ⟨w2, r2, hw2, hr2, hv2'⟩ := mixedConvert_cons_ok hv2
  have hww : w1 = w2 := by
    have h12 : Except.ok w1 = Except.ok w2 := hw1.symm.trans hw2
    exact (Except.ok.injEq _ _).mp h12
  subst hww
  exact ⟨w1, hw1, ⟨u1, r1, by simp [hs1, hv1']⟩, ⟨u2, r2, by simp [hs2, hv2']⟩⟩

/-- Witness for C6: the regex edit `rxEdit` contributes the same span on
snapshot "abc" inside `[rmEdit, rxEdit]` (a mixed batch) and inside
`[rxEdit, rrEdit]` (a different batch). -/
theorem c6_mixed_spans_witness :
    ∃ w, convertMixedOne "abc".toList rxEdit = .ok w ∧
      (∃ u v, [(⟨1, 2, 1, 3, "X"⟩ : Span)] = u ++ w ++ v) ∧
      (∃ u v, [(⟨1, 2, 1, 3, "X"⟩ : Span), ⟨1, 1, 1, 2, "Z"⟩] = u ++ w ++ v) :=
  c6_mixed_spans_snapshot_independent "abc" rxEdit [rmEdit] [] [] [rrEdit]
    [⟨1, 2, 1, 3, "X"⟩] [⟨1, 2, 1, 3, "X"⟩, ⟨1, 1, 1, 2, "Z"⟩] (by decide) rfl rfl

theorem foldl_sig_penalty (ctx : List (List Char)) (s : Int) :
    ctx.foldl (fun acc l => if sigSearch l then acc - 5 else acc) s
      = s - 5 * (ctx.countP (fun l => sigSearch l) : Int) := by
  induction ctx generalizing s with
  | nil => simp
  | cons a ctx ih =>
    by_cases h : sigSearch a
    · simp [List.foldl_cons, h, ih, List.countP_cons]
      try ring
    · simp [List.foldl_cons, h, ih, List.countP_cons]
      try ring

theorem scoreMatch_eq_corrected (t : List Char) (m : Mtch) :
    scoreMatch (splitLines t) (lineStartsOf t) m = correctedSpecScore t m := by
  unfold scoreMatch correctedSpecScore
  dsimp only
  split
  · rename_i h
    rw [foldl_sig_penalty]
    rw [List.getD_eq_getElem?_getD, List.getElem?_eq_getElem h, Option.getD_some]
    split
    · rename_i hb
      simp only [List.get_eq_getElem] at hb ⊢
      rw [if_pos hb]
      try ring
    · rename_i hb
      simp only [List.get_eq_getElem] at hb ⊢
      rw [if_neg hb]
      try ring
  · rfl

theorem pickBestAux_eq_argmax (f : Mtch → Int) (b : Mtch) (rest : List Mtch) :
    pickBestAux (f b, b) (rest.map (fun m => (f m, m))) = argmaxFirstAux f b rest := by
  induction rest generalizing b with
  | nil => rfl
  | cons x rest ih =>
    simp only [List.map_cons, pickBestAux, argmaxFirstAux]
    by_cases h : f x > f b <;> simp [h, ih]

theorem findBestClosingBraceMatch_eq_argmax (ms : List Mtch) (t : List Char) :
    findBestClosingBraceMatch ms t = argmaxFirst (correctedSpecScore t) ms := by
  unfold findBestClosingBraceMatch argmaxFirst
  cases ms with
  | nil => rfl
  | cons m rest =>
    simp only [List.map_cons, scoreMatch_eq_corrected]
    rw [pickBestAux_eq_argmax]

/-- C7 (amended): among multiple closing-brace matches the matcher picks
the FIRST match attaining the maximal score
`max(0, 20 - indentation) + max(0, 10 - distanceFromEnd)
 - 5 * (signature-looking lines in the window from 3 lines BEFORE the match
 line through 1 line AFTER it, the match line included)
 + (15 when indentation ≤ 4 and distanceFromEnd ≤ 3)`
(the claim's "2 lines after" window is off by one — see the counterexample);
and consequently on `sbuf` — two same-indentation closing braces, the first
followed by trailing method-signature-like lines, the second at true end of
file — the matcher selects the end-of-file one (offset 39, the last line of
the five). -/
theorem c7_corrected_scoring_and_eof_selection :
    (∀ (ms : List Mtch) (t : List Char),
        findBestClosingBraceMatch ms t = argmaxFirst (correctedSpecScore t) ms) ∧
    findBestAnchorMatch .spacesCloseBraceLine false sbuf.toList true = .ok (some ⟨39, 40⟩) ∧
    lineNumOf (lineStartsOf sbuf.toList) 39 = 4 ∧
    (splitLines sbuf.toList).length = 5 ∧
    (splitLines sbuf.toList).getD 1 [] = "\x7d".toList ∧
    (splitLines sbuf.toList).getD 4 [] = "\x7d".toList ∧
    sigSearch ((splitLines sbuf.toList).getD 2 []) = true :=
  ⟨findBestClosingBraceMatch_eq_argmax, rfl, rfl, rfl, rfl, rfl, rfl⟩

/-- C8: supplying a field under any supported alias spelling yields the
identical canonical operation as supplying it under the canonical name
(`new_content`/`newMethod`/`new_method`/`content` for `replacement`;
`method_name`/`target`/`method` for `methodName`; `class_name`/`class` for
`className`; `anchorText` for `anchor`), and a field already present under
its canonical name is never overwritten by a synonym. -/
theorem c8_alias_invariance_and_no_overwrite :
    (∀ v : String,
      aliasResolve { op := some "replace_method", new_content := some v } =
        aliasResolve { op := some "replace_method", replacement := some v }) ∧
    (∀ v : String,
      aliasResolve { op := some "replace_method", newMethod := some v } =
        aliasResolve { op := some "replace_method", replacement := some v }) ∧
    (∀ v : String,
      aliasResolve { op := some "replace_method", new_method := some v } =
        aliasResolve { op := some "replace_method", replacement := some v }) ∧
    (∀ v : String,
      aliasResolve { op := some "replace_method", content := some v } =
        aliasResolve { op := some "replace_method", replacement := some v }) ∧
    (∀ v : String,
      aliasResolve { op := some "replace_method", method_name := some v } =
        aliasResolve { op := some "replace_method", methodName := some v }) ∧
    (∀ v : String,
      aliasResolve { op := some "replace_method", target := some v } =
        aliasResolve { op := some "replace_method", methodName := some v }) ∧
    (∀ v : String,
      aliasResolve { op := some "replace_method", method := some v } =
        aliasResolve { op := some "replace_method", methodName := some v }) ∧
    (∀ v : String,
      aliasResolve { op := some "replace_class", class_name := some v } =
        aliasResolve { op := some "replace_class", className := some v }) ∧
    (∀ v : String,
      aliasResolve { op := some "replace_class", class_ := some v } =
        aliasResolve { op := some "replace_class", className := some v }) ∧
    (∀ p : APat,
      aliasResolve { op := some "anchor_replace", anchorText := some p, text := some "T" } =
        aliasResolve { op := some "anchor_replace", anchor := some p, text := some "T" }) ∧
    (∀ v w : String,
      (aliasResolve { op := some "replace_method", methodName := some w,
                      target := some v }).methodName = some w) ∧
    (∀ v w : String,
      (aliasResolve { op := some "replace_method", replacement := some w,
                      new_content := some v }).replacement = some w) ∧
    (∀ v w : String,
      (aliasResolve { op := some "replace_class", className := some w,
                      class_name := some v }).className = some w) ∧
    (∀ p q : APat,
      (aliasResolve { op := some "anchor_replace", anchor := some q,
                      anchorText := some p }).anchor = some q) :=
  by
  refine ⟨?_, ?_, ?_, ?_, ?_, ?_, ?_, ?_, ?_, ?_, ?_, ?_, ?_, ?_⟩
  · intro v
    unfold aliasResolve
    rw [show (aliasStepOp { op := some "replace_method", new_content := some v } : Edit) = { op := some "replace_method", new_content := some v } from rfl,
      show (aliasStepClass { op := some "replace_method", new_content := some v } : Edit) = { op := some "replace_method", new_content := some v } from rfl,
      show (aliasStepMethod { op := some "replace_method", new_content := some v } : Edit) = { op := some "replace_method", new_content := some v } from rfl,
      show (aliasStepReplacement { op := some "replace_method", new_content := some v } : Edit) = { op := some "replace_method", replacement := some v } from rfl,
      show (aliasStepAfterBefore { op := some "replace_method", replacement := some v } : Edit) = { op := some "replace_method", replacement := some v } from rfl,
      show (aliasStepAnchorMethod { op := some "replace_method", replacement := some v } : Edit) = { op := some "replace_method", replacement := some v } from rfl,
      show (aliasStepAnchor { op := some "replace_method", replacement := some v } : Edit) = { op := some "replace_method", replacement := some v } from rfl,
      show (aliasStepNewText { op := some "replace_method", replacement := some v } : Edit) = { op := some "replace_method", replacement := some v } from rfl,
      show (aliasStepReclass { op := some "replace_method", replacement := some v } : Edit) = { op := some "replace_method", replacement := some v } from rfl,
      show (aliasStepRange { op := some "replace_method", new_content := some v } { op := some "replace_method", replacement := some v } : Edit) = { op := some "replace_method", replacement := some v } from rfl,
      show (aliasStepOp { op := some "replace_method", replacement := some v } : Edit) = { op := some "replace_method", replacement := some v } from rfl,
      show (aliasStepClass { op := some "replace_method", replacement := some v } : Edit) = { op := some "replace_method", replacement := some v } from rfl,
      show (aliasStepMethod { op := some "replace_method", replacement := some v } : Edit) = { op := some "replace_method", replacement := some v } from rfl,
      show (aliasStepReplacement { op := some "replace_method", replacement := some v } : Edit) = { op := some "replace_method", replacement := some v } from rfl,
      show (aliasStepAfterBefore { op := some "replace_method", replacement := some v } : Edit) = { op := some "replace_method", replacement := some v } from rfl,
      show (aliasStepAnchorMethod { op := some "replace_method", replacement := some v } : Edit) = { op := some "replace_method", replacement := some v } from rfl,
      show (aliasStepAnchor { op := some "replace_method", replacement := some v } : Edit) = { op := some "replace_method", replacement := some v } from rfl,
      show (aliasStepNewText { op := some "replace_method", replacement := some v } : Edit) = { op := some "replace_method", replacement := some v } from rfl,
      show (aliasStepReclass { op := some "replace_method", replacement := some v } : Edit) = { op := some "replace_method", replacement := some v } from rfl,
      show (aliasStepRange { op := some "replace_method", replacement := some v } { op := some "replace_method", replacement := some v } : Edit) = { op := some "replace_method", replacement := some v } from rfl]
  · intro v
    unfold aliasResolve
    rw [show (aliasStepOp { op := some "replace_method", newMethod := some v } : Edit) = { op := some "replace_method", newMethod := some v } from rfl,
      show (aliasStepClass { op := some "replace_method", newMethod := some v } : Edit) = { op := some "replace_method", newMethod := some v } from rfl,
      show (aliasStepMethod { op := some "replace_method", newMethod := some v } : Edit) = { op := some "replace_method", newMethod := some v } from rfl,
      show (aliasStepReplacement { op := some "replace_method", newMethod := some v } : Edit) = { op := some "replace_method", replacement := some v } from rfl,
      show (aliasStepAfterBefore { op := some "replace_method", replacement := some v } : Edit) = { op := some "replace_method", replacement := some v } from rfl,
      show (aliasStepAnchorMethod { op := some "replace_method", replacement := some v } : Edit) = { op := some "replace_method", replacement := some v } from rfl,
      show (aliasStepAnchor { op := some "replace_method", replacement := some v } : Edit) = { op := some "replace_method", replacement := some v } from rfl,
      show (aliasStepNewText { op := some "replace_method", replacement := some v } : Edit) = { op := some "replace_method", replacement := some v } from rfl,
      show (aliasStepReclass { op := some "replace_method", replacement := some v } : Edit) = { op := some "replace_method", replacement := some v } from rfl,
      show (aliasStepRange { op := some "replace_method", newMethod := some v } { op := some "replace_method", replacement := some v } : Edit) = { op := some "replace_method", replacement := some v } from rfl,
      show (aliasStepOp { op := some "replace_method", replacement := some v } : Edit) = { op := some "replace_method", replacement := some v } from rfl,
      show (aliasStepClass { op := some "replace_method", replacement := some v } : Edit) = { op := some "replace_method", replacement := some v } from rfl,
      show (aliasStepMethod { op := some "replace_method", replacement := some v } : Edit) = { op := some "replace_method", replacement := some v } from rfl,
      show (aliasStepReplacement { op := some "replace_method", replacement := some v } : Edit) = { op := some "replace_method", replacement := some v } from rfl,
      show (aliasStepAfterBefore { op := some "replace_method", replacement := some v } : Edit) = { op := some "replace_method", replacement := some v } from rfl,
      show (aliasStepAnchorMethod { op := some "replace_method", replacement := some v } : Edit) = { op := some "replace_method", replacement := some v } from rfl,
      show (aliasStepAnchor { op := some "replace_method", replacement := some v } : Edit) = { op := some "replace_method", replacement := some v } from rfl,
      show (aliasStepNewText { op := some "replace_method", replacement := some v } : Edit) = { op := some "replace_method", replacement := some v } from rfl,
      show (aliasStepReclass { op := some "replace_method", replacement := some v } : Edit) = { op := some "replace_method", replacement := some v } from rfl,
      show (aliasStepRange { op := some "replace_method", replacement := some v } { op := some "replace_method", replacement := some v } : Edit) = { op := some "replace_method", replacement := some v } from rfl]
  · intro v
    unfold aliasResolve
    rw [show (aliasStepOp { op := some "replace_method", new_method := some v } : Edit) = { op := some "replace_method", new_method := some v } from rfl,
      show (aliasStepClass { op := some "replace_method", new_method := some v } : Edit) = { op := some "replace_method", new_method := some v } from rfl,
      show (aliasStepMethod { op := some "replace_method", new_method := some v } : Edit) = { op := some "replace_method", new_method := some v } from rfl,
      show (aliasStepReplacement { op := some "replace_method", new_method := some v } : Edit) = { op := some "replace_method", replacement := some v } from rfl,
      show (aliasStepAfterBefore { op := some "replace_method", replacement := some v } : Edit) = { op := some "replace_method", replacement := some v } from rfl,
      show (aliasStepAnchorMethod { op := some "replace_method", replacement := some v } : Edit) = { op := some "replace_method", replacement := some v } from rfl,
      show (aliasStepAnchor { op := some "replace_method", replacement := some v } : Edit) = { op := some "replace_method", replacement := some v } from rfl,
      show (aliasStepNewText { op := some "replace_method", replacement := some v } : Edit) = { op := some "replace_method", replacement := some v } from rfl,
      show (aliasStepReclass { op := some "replace_method", replacement := some v } : Edit) = { op := some "replace_method", replacement := some v } from rfl,
      show (aliasStepRange { op := some "replace_method", new_method := some v } { op := some "replace_method", replacement := some v } : Edit) = { op := some "replace_method", replacement := some v } from rfl,
      show (aliasStepOp { op := some "replace_method", replacement := some v } : Edit) = { op := some "replace_method", replacement := some v } from rfl,
      show (aliasStepClass { op := some "replace_method", replacement := some v } : Edit) = { op := some "replace_method", replacement := some v } from rfl,
      show (aliasStepMethod { op := some "replace_method", replacement := some v } : Edit) = { op := some "replace_method", replacement := some v } from rfl,
      show (aliasStepReplacement { op := some "replace_method", replacement := some v } : Edit) = { op := some "replace_method", replacement := some v } from rfl,
      show (aliasStepAfterBefore { op := some "replace_method", replacement := some v } : Edit) = { op := some "replace_method", replacement := some v } from rfl,
      show (aliasStepAnchorMethod { op := some "replace_method", replacement := some v } : Edit) = { op := some "replace_method", replacement := some v } from rfl,
      show (aliasStepAnchor { op := some "replace_method", replacement := some v } : Edit) = { op := some "replace_method", replacement := some v } from rfl,
      show (aliasStepNewText { op := some "replace_method", replacement := some v } : Edit) = { op := some "replace_method", replacement := some v } from rfl,
      show (aliasStepReclass { op := some "replace_method", replacement := some v } : Edit) = { op := some "replace_method", replacement := some v } from rfl,
      show (aliasStepRange { op := some "replace_method", replacement := some v } { op := some "replace_method", replacement := some v } : Edit) = { op := some "replace_method", replacement := some v } from rfl]
  · intro v
    unfold aliasResolve
    rw [show (aliasStepOp { op := some "replace_method", content := some v } : Edit) = { op := some "replace_method", content := some v } from rfl,
      show (aliasStepClass { op := some "replace_method", content := some v } : Edit) = { op := some "replace_method", content := some v } from rfl,
      show (aliasStepMethod { op := some "replace_method", content := some v } : Edit) = { op := some "replace_method", content := some v } from rfl,
      show (aliasStepReplacement { op := some "replace_method", content := some v } : Edit) = { op := some "replace_method", replacement := some v } from rfl,
      show (aliasStepAfterBefore { op := some "replace_method", replacement := some v } : Edit) = { op := some "replace_method", replacement := some v } from rfl,
      show (aliasStepAnchorMethod { op := some "replace_method", replacement := some v } : Edit) = { op := some "replace_method", replacement := some v } from rfl,
      show (aliasStepAnchor { op := some "replace_method", replacement := some v } : Edit) = { op := some "replace_method", replacement := some v } from rfl,
      show (aliasStepNewText { op := some "replace_method", replacement := some v } : Edit) = { op := some "replace_method", replacement := some v } from rfl,
      show (aliasStepReclass { op := some "replace_method", replacement := some v } : Edit) = { op := some "replace_method", replacement := some v } from rfl,
      show (aliasStepRange { op := some "replace_method", content := some v } { op := some "replace_method", replacement := some v } : Edit) = { op := some "replace_method", replacement := some v } from rfl,
      show (aliasStepOp { op := some "replace_method", replacement := some v } : Edit) = { op := some "replace_method", replacement := some v } from rfl,
      show (aliasStepClass { op := some "replace_method", replacement := some v } : Edit) = { op := some "replace_method", replacement := some v } from rfl,
      show (aliasStepMethod { op := some "replace_method", replacement := some v } : Edit) = { op := some "replace_method", replacement := some v } from rfl,
      show (aliasStepReplacement { op := some "replace_method", replacement := some v } : Edit) = { op := some "replace_method", replacement := some v } from rfl,
      show (aliasStepAfterBefore { op := some "replace_method", replacement := some v } : Edit) = { op := some "replace_method", replacement := some v } from rfl,
      show (aliasStepAnchorMethod { op := some "replace_method", replacement := some v } : Edit) = { op := some "replace_method", replacement := some v } from rfl,
      show (aliasStepAnchor { op := some "replace_method", replacement := some v } : Edit) = { op := some "replace_method", replacement := some v } from rfl,
      show (aliasStepNewText { op := some "replace_method", replacement := some v } : Edit) = { op := some "replace_method", replacement := some v } from rfl,
      show (aliasStepReclass { op := some "replace_method", replacement := some v } : Edit) = { op := some "replace_method", replacement := some v } from rfl,
      show (aliasStepRange { op := some "replace_method", replacement := some v } { op := some "replace_method", replacement := some v } : Edit) = { op := some "replace_method", replacement := some v } from rfl]
  · intro v
    unfold aliasResolve
    rw [show (aliasStepOp { op := some "replace_method", method_name := some v } : Edit) = { op := some "replace_method", method_name := some v } from rfl,
      show (aliasStepClass { op := some "replace_method", method_name := some v } : Edit) = { op := some "replace_method", method_name := some v } from rfl,
      show (aliasStepMethod { op := some "replace_method", method_name := some v } : Edit) = { op := some "replace_method", methodName := some v } from rfl,
      show (aliasStepReplacement { op := some "replace_method", methodName := some v } : Edit) = { op := some "replace_method", methodName := some v } from rfl,
      show (aliasStepAfterBefore { op := some "replace_method", methodName := some v } : Edit) = { op := some "replace_method", methodName := some v } from rfl,
      show (aliasStepAnchorMethod { op := some "replace_method", methodName := some v } : Edit) = { op := some "replace_method", methodName := some v } from rfl,
      show (aliasStepAnchor { op := some "replace_method", methodName := some v } : Edit) = { op := some "replace_method", methodName := some v } from rfl,
      show (aliasStepNewText { op := some "replace_method", methodName := some v } : Edit) = { op := some "replace_method", methodName := some v } from rfl,
      show (aliasStepReclass { op := some "replace_method", methodName := some v } : Edit) = { op := some "replace_method", methodName := some v } from rfl,
      show (aliasStepRange { op := some "replace_method", method_name := some v } { op := some "replace_method", methodName := some v } : Edit) = { op := some "replace_method", methodName := some v } from rfl,
      show (aliasStepOp { op := some "replace_method", methodName := some v } : Edit) = { op := some "replace_method", methodName := some v } from rfl,
      show (aliasStepClass { op := some "replace_method", methodName := some v } : Edit) = { op := some "replace_method", methodName := some v } from rfl,
      show (aliasStepMethod { op := some "replace_method", methodName := some v } : Edit) = { op := some "replace_method", methodName := some v } from rfl,
      show (aliasStepReplacement { op := some "replace_method", methodName := some v } : Edit) = { op := some "replace_method", methodName := some v } from rfl,
      show (aliasStepAfterBefore { op := some "replace_method", methodName := some v } : Edit) = { op := some "replace_method", methodName := some v } from rfl,
      show (aliasStepAnchorMethod { op := some "replace_method", methodName := some v } : Edit) = { op := some "replace_method", methodName := some v } from rfl,
      show (aliasStepAnchor { op := some "replace_method", methodName := some v } : Edit) = { op := some "replace_method", methodName := some v } from rfl,
      show (aliasStepNewText { op := some "replace_method", methodName := some v } : Edit) = { op := some "replace_method", methodName := some v } from rfl,
      show (aliasStepReclass { op := some "replace_method", methodName := some v } : Edit) = { op := some "replace_method", methodName := some v } from rfl,
      show (aliasStepRange { op := some "replace_method", methodName := some v } { op := some "replace_method", methodName := some v } : Edit) = { op := some "replace_method", methodName := some v } from rfl]
  · intro v
    unfold aliasResolve
    rw [show (aliasStepOp { op := some "replace_method", target := some v } : Edit) = { op := some "replace_method", target := some v } from rfl,
      show (aliasStepClass { op := some "replace_method", target := some v } : Edit) = { op := some "replace_method", target := some v } from rfl,
      show (aliasStepMethod { op := some "replace_method", target := some v } : Edit) = { op := some "replace_method", methodName := some v } from rfl,
      show (aliasStepReplacement { op := some "replace_method", methodName := some v } : Edit) = { op := some "replace_method", methodName := some v } from rfl,
      show (aliasStepAfterBefore { op := some "replace_method", methodName := some v } : Edit) = { op := some "replace_method", methodName := some v } from rfl,
      show (aliasStepAnchorMethod { op := some "replace_method", methodName := some v } : Edit) = { op := some "replace_method", methodName := some v } from rfl,
      show (aliasStepAnchor { op := some "replace_method", methodName := some v } : Edit) = { op := some "replace_method", methodName := some v } from rfl,
      show (aliasStepNewText { op := some "replace_method", methodName := some v } : Edit) = { op := some "replace_method", methodName := some v } from rfl,
      show (aliasStepReclass { op := some "replace_method", methodName := some v } : Edit) = { op := some "replace_method", methodName := some v } from rfl,
      show (aliasStepRange { op := some "replace_method", target := some v } { op := some "replace_method", methodName := some v } : Edit) = { op := some "replace_method", methodName := some v } from rfl,
      show (aliasStepOp { op := some "replace_method", methodName := some v } : Edit) = { op := some "replace_method", methodName := some v } from rfl,
      show (aliasStepClass { op := some "replace_method", methodName := some v } : Edit) = { op := some "replace_method", methodName := some v } from rfl,
      show (aliasStepMethod { op := some "replace_method", methodName := some v } : Edit) = { op := some "replace_method", methodName := some v } from rfl,
      show (aliasStepReplacement { op := some "replace_method", methodName := some v } : Edit) = { op := some "replace_method", methodName := some v } from rfl,
      show (aliasStepAfterBefore { op := some "replace_method", methodName := some v } : Edit) = { op := some "replace_method", methodName := some v } from rfl,
      show (aliasStepAnchorMethod { op := some "replace_method", methodName := some v } : Edit) = { op := some "replace_method", methodName := some v } from rfl,
      show (aliasStepAnchor { op := some "replace_method", methodName := some v } : Edit) = { op := some "replace_method", methodName := some v } from rfl,
      show (aliasStepNewText { op := some "replace_method", methodName := some v } : Edit) = { op := some "replace_method", methodName := some v } from rfl,
      show (aliasStepReclass { op := some "replace_method", methodName := some v } : Edit) = { op := some "replace_method", methodName := some v } from rfl,
      show (aliasStepRange { op := some "replace_method", methodName := some v } { op := some "replace_method", methodName := some v } : Edit) = { op := some "replace_method", methodName := some v } from rfl]
  · intro v
    unfold aliasResolve
    rw [show (aliasStepOp { op := some "replace_method", method := some v } : Edit) = { op := some "replace_method", method := some v } from rfl,
      show (aliasStepClass { op := some "replace_method", method := some v } : Edit) = { op := some "replace_method", method := some v } from rfl,
      show (aliasStepMethod { op := some "replace_method", method := some v } : Edit) = { op := some "replace_method", methodName := some v } from rfl,
      show (aliasStepReplacement { op := some "replace_method", methodName := some v } : Edit) = { op := some "replace_method", methodName := some v } from rfl,
      show (aliasStepAfterBefore { op := some "replace_method", methodName := some v } : Edit) = { op := some "replace_method", methodName := some v } from rfl,
      show (aliasStepAnchorMethod { op := some "replace_method", methodName := some v } : Edit) = { op := some "replace_method", methodName := some v } from rfl,
      show (aliasStepAnchor { op := some "replace_method", methodName := some v } : Edit) = { op := some "replace_method", methodName := some v } from rfl,
      show (aliasStepNewText { op := some "replace_method", methodName := some v } : Edit) = { op := some "replace_method", methodName := some v } from rfl,
      show (aliasStepReclass { op := some "replace_method", methodName := some v } : Edit) = { op := some "replace_method", methodName := some v } from rfl,
      show (aliasStepRange { op := some "replace_method", method := some v } { op := some "replace_method", methodName := some v } : Edit) = { op := some "replace_method", methodName := some v } from rfl,
      show (aliasStepOp { op := some "replace_method", methodName := some v } : Edit) = { op := some "replace_method", methodName := some v } from rfl,
      show (aliasStepClass { op := some "replace_method", methodName := some v } : Edit) = { op := some "replace_method", methodName := some v } from rfl,
      show (aliasStepMethod { op := some "replace_method", methodName := some v } : Edit) = { op := some "replace_method", methodName := some v } from rfl,
      show (aliasStepReplacement { op := some "replace_method", methodName := some v } : Edit) = { op := some "replace_method", methodName := some v } from rfl,
      show (aliasStepAfterBefore { op := some "replace_method", methodName := some v } : Edit) = { op := some "replace_method", methodName := some v } from rfl,
      show (aliasStepAnchorMethod { op := some "replace_method", methodName := some v } : Edit) = { op := some "replace_method", methodName := some v } from rfl,
      show (aliasStepAnchor { op := some "replace_method", methodName := some v } : Edit) = { op := some "replace_method", methodName := some v } from rfl,
      show (aliasStepNewText { op := some "replace_method", methodName := some v } : Edit) = { op := some "replace_method", methodName := some v } from rfl,
      show (aliasStepReclass { op := some "replace_method", methodName := some v } : Edit) = { op := some "replace_method", methodName := some v } from rfl,
      show (aliasStepRange { op := some "replace_method", methodName := some v } { op := some "replace_method", methodName := some v } : Edit) = { op := some "replace_method", methodName := some v } from rfl]
  · intro v
    unfold aliasResolve
    rw [show (aliasStepOp { op := some "replace_class", class_name := some v } : Edit) = { op := some "replace_class", class_name := some v } from rfl,
      show (aliasStepClass { op := some "replace_class", class_name := some v } : Edit) = { op := some "replace_class", className := some v } from rfl,
      show (aliasStepMethod { op := some "replace_class", className := some v } : Edit) = { op := some "replace_class", className := some v } from rfl,
      show (aliasStepReplacement { op := some "replace_class", className := some v } : Edit) = { op := some "replace_class", className := some v } from rfl,
      show (aliasStepAfterBefore { op := some "replace_class", className := some v } : Edit) = { op := some "replace_class", className := some v } from rfl,
      show (aliasStepAnchorMethod { op := some "replace_class", className := some v } : Edit) = { op := some "replace_class", className := some v } from rfl,
      show (aliasStepAnchor { op := some "replace_class", className := some v } : Edit) = { op := some "replace_class", className := some v } from rfl,
      show (aliasStepNewText { op := some "replace_class", className := some v } : Edit) = { op := some "replace_class", className := some v } from rfl,
      show (aliasStepReclass { op := some "replace_class", className := some v } : Edit) = { op := some "replace_class", className := some v } from rfl,
      show (aliasStepRange { op := some "replace_class", class_name := some v } { op := some "replace_class", className := some v } : Edit) = { op := some "replace_class", className := some v } from rfl,
      show (aliasStepOp { op := some "replace_class", className := some v } : Edit) = { op := some "replace_class", className := some v } from rfl,
      show (aliasStepClass { op := some "replace_class", className := some v } : Edit) = { op := some "replace_class", className := some v } from rfl,
      show (aliasStepMethod { op := some "replace_class", className := some v } : Edit) = { op := some "replace_class", className := some v } from rfl,
      show (aliasStepReplacement { op := some "replace_class", className := some v } : Edit) = { op := some "replace_class", className := some v } from rfl,
      show (aliasStepAfterBefore { op := some "replace_class", className := some v } : Edit) = { op := some "replace_class", className := some v } from rfl,
      show (aliasStepAnchorMethod { op := some "replace_class", className := some v } : Edit) = { op := some "replace_class", className := some v } from rfl,
      show (aliasStepAnchor { op := some "replace_class", className := some v } : Edit) = { op := some "replace_class", className := some v } from rfl,
      show (aliasStepNewText { op := some "replace_class", className := some v } : Edit) = { op := some "replace_class", className := some v } from rfl,
      show (aliasStepReclass { op := some "replace_class", className := some v } : Edit) = { op := some "replace_class", className := some v } from rfl,
      show (aliasStepRange { op := some "replace_class", className := some v } { op := some "replace_class", className := some v } : Edit) = { op := some "replace_class", className := some v } from rfl]
  · intro v
    unfold aliasResolve
    rw [show (aliasStepOp { op := some "replace_class", class_ := some v } : Edit) = { op := some "replace_class", class_ := some v } from rfl,
      show (aliasStepClass { op := some "replace_class", class_ := some v } : Edit) = { op := some "replace_class", className := some v } from rfl,
      show (aliasStepMethod { op := some "replace_class", className := some v } : Edit) = { op := some "replace_class", className := some v } from rfl,
      show (aliasStepReplacement { op := some "replace_class", className := some v } : Edit) = { op := some "replace_class", className := some v } from rfl,
      show (aliasStepAfterBefore { op := some "replace_class", className := some v } : Edit) = { op := some "replace_class", className := some v } from rfl,
      show (aliasStepAnchorMethod { op := some "replace_class", className := some v } : Edit) = { op := some "replace_class", className := some v } from rfl,
      show (aliasStepAnchor { op := some "replace_class", className := some v } : Edit) = { op := some "replace_class", className := some v } from rfl,
      show (aliasStepNewText { op := some "replace_class", className := some v } : Edit) = { op := some "replace_class", className := some v } from rfl,
      show (aliasStepReclass { op := some "replace_class", className := some v } : Edit) = { op := some "replace_class", className := some v } from rfl,
      show (aliasStepRange { op := some "replace_class", class_ := some v } { op := some "replace_class", className := some v } : Edit) = { op := some "replace_class", className := some v } from rfl,
      show (aliasStepOp { op := some "replace_class", className := some v } : Edit) = { op := some "replace_class", className := some v } from rfl,
      show (aliasStepClass { op := some "replace_class", className := some v } : Edit) = { op := some "replace_class", className := some v } from rfl,
      show (aliasStepMethod { op := some "replace_class", className := some v } : Edit) = { op := some "replace_class", className := some v } from rfl,
      show (aliasStepReplacement { op := some "replace_class", className := some v } : Edit) = { op := some "replace_class", className := some v } from rfl,
      show (aliasStepAfterBefore { op := some "replace_class", className := some v } : Edit) = { op := some "replace_class", className := some v } from rfl,
      show (aliasStepAnchorMethod { op := some "replace_class", className := some v } : Edit) = { op := some "replace_class", className := some v } from rfl,
      show (aliasStepAnchor { op := some "replace_class", className := some v } : Edit) = { op := some "replace_class", className := some v } from rfl,
      show (aliasStepNewText { op := some "replace_class", className := some v } : Edit) = { op := some "replace_class", className := some v } from rfl,
      show (aliasStepReclass { op := some "replace_class", className := some v } : Edit) = { op := some "replace_class", className := some v } from rfl,
      show (aliasStepRange { op := some "replace_class", className := some v } { op := some "replace_class", className := some v } : Edit) = { op := some "replace_class", className := some v } from rfl]
  · intro p
    unfold aliasResolve
    rw [show (aliasStepOp { op := some "anchor_replace", anchorText := some p, text := some "T" } : Edit) = { op := some "anchor_replace", anchorText := some p, text := some "T" } from rfl,
      show (aliasStepClass { op := some "anchor_replace", anchorText := some p, text := some "T" } : Edit) = { op := some "anchor_replace", anchorText := some p, text := some "T" } from rfl,
      show (aliasStepMethod { op := some "anchor_replace", anchorText := some p, text := some "T" } : Edit) = { op := some "anchor_replace", anchorText := some p, text := some "T" } from rfl,
      show (aliasStepReplacement { op := some "anchor_replace", anchorText := some p, text := some "T" } : Edit) = { op := some "anchor_replace", anchorText := some p, text := some "T" } from rfl,
      show (aliasStepAfterBefore { op := some "anchor_replace", anchorText := some p, text := some "T" } : Edit) = { op := some "anchor_replace", anchorText := some p, text := some "T" } from rfl,
      show (aliasStepAnchorMethod { op := some "anchor_replace", anchorText := some p, text := some "T" } : Edit) = { op := some "anchor_replace", anchorText := some p, text := some "T" } from rfl,
      show (aliasStepAnchor { op := some "anchor_replace", anchorText := some p, text := some "T" } : Edit) = { op := some "anchor_replace", anchor := some p, text := some "T" } from rfl,
      show (aliasStepNewText { op := some "anchor_replace", anchor := some p, text := some "T" } : Edit) = { op := some "anchor_replace", anchor := some p, text := some "T" } from rfl,
      show (aliasStepReclass { op := some "anchor_replace", anchor := some p, text := some "T" } : Edit) = { op := some "anchor_replace", anchor := some p, text := some "T" } from rfl,
      show (aliasStepRange { op := some "anchor_replace", anchorText := some p, text := some "T" } { op := some "anchor_replace", anchor := some p, text := some "T" } : Edit) = { op := some "anchor_replace", anchor := some p, text := some "T" } from rfl,
      show (aliasStepOp { op := some "anchor_replace", anchor := some p, text := some "T" } : Edit) = { op := some "anchor_replace", anchor := some p, text := some "T" } from rfl,
      show (aliasStepClass { op := some "anchor_replace", anchor := some p, text := some "T" } : Edit) = { op := some "anchor_replace", anchor := some p, text := some "T" } from rfl,
      show (aliasStepMethod { op := some "anchor_replace", anchor := some p, text := some "T" } : Edit) = { op := some "anchor_replace", anchor := some p, text := some "T" } from rfl,
      show (aliasStepReplacement { op := some "anchor_replace", anchor := some p, text := some "T" } : Edit) = { op := some "anchor_replace", anchor := some p, text := some "T" } from rfl,
      show (aliasStepAfterBefore { op := some "anchor_replace", anchor := some p, text := some "T" } : Edit) = { op := some "anchor_replace", anchor := some p, text := some "T" } from rfl,
      show (aliasStepAnchorMethod { op := some "anchor_replace", anchor := some p, text := some "T" } : Edit) = { op := some "anchor_replace", anchor := some p, text := some "T" } from rfl,
      show (aliasStepAnchor { op := some "anchor_replace", anchor := some p, text := some "T" } : Edit) = { op := some "anchor_replace", anchor := some p, text := some "T" } from rfl,
      show (aliasStepNewText { op := some "anchor_replace", anchor := some p, text := some "T" } : Edit) = { op := some "anchor_replace", anchor := some p, text := some "T" } from rfl,
      show (aliasStepReclass { op := some "anchor_replace", anchor := some p, text := some "T" } : Edit) = { op := some "anchor_replace", anchor := some p, text := some "T" } from rfl,
      show (aliasStepRange { op := some "anchor_replace", anchor := some p, text := some "T" } { op := some "anchor_replace", anchor := some p, text := some "T" } : Edit) = { op := some "anchor_replace", anchor := some p, text := some "T" } from rfl]
  · intro v w
    unfold aliasResolve
    rw [show (aliasStepOp { op := some "replace_method", methodName := some w, target := some v } : Edit) = { op := some "replace_method", methodName := some w, target := some v } from rfl,
      show (aliasStepClass { op := some "replace_method", methodName := some w, target := some v } : Edit) = { op := some "replace_method", methodName := some w, target := some v } from rfl,
      show (aliasStepMethod { op := some "replace_method", methodName := some w, target := some v } : Edit) = { op := some "replace_method", methodName := some w, target := some v } from rfl,
      show (aliasStepReplacement { op := some "replace_method", methodName := some w, target := some v } : Edit) = { op := some "replace_method", methodName := some w, target := some v } from rfl,
      show (aliasStepAfterBefore { op := some "replace_method", methodName := some w, target := some v } : Edit) = { op := some "replace_method", methodName := some w, target := some v } from rfl,
      show (aliasStepAnchorMethod { op := some "replace_method", methodName := some w, target := some v } : Edit) = { op := some "replace_method", methodName := some w, target := some v } from rfl,
      show (aliasStepAnchor { op := some "replace_method", methodName := some w, target := some v } : Edit) = { op := some "replace_method", methodName := some w, target := some v } from rfl,
      show (aliasStepNewText { op := some "replace_method", methodName := some w, target := some v } : Edit) = { op := some "replace_method", methodName := some w, target := some v } from rfl,
      show (aliasStepReclass { op := some "replace_method", methodName := some w, target := some v } : Edit) = { op := some "replace_method", methodName := some w, target := some v } from rfl,
      show (aliasStepRange { op := some "replace_method", methodName := some w, target := some v } { op := some "replace_method", methodName := some w, target := some v } : Edit) = { op := some "replace_method", methodName := some w, target := some v } from rfl]
  · intro v w
    unfold aliasResolve
    rw [show (aliasStepOp { op := some "replace_method", replacement := some w, new_content := some v } : Edit) = { op := some "replace_method", replacement := some w, new_content := some v } from rfl,
      show (aliasStepClass { op := some "replace_method", replacement := some w, new_content := some v } : Edit) = { op := some "replace_method", replacement := some w, new_content := some v } from rfl,
      show (aliasStepMethod { op := some "replace_method", replacement := some w, new_content := some v } : Edit) = { op := some "replace_method", replacement := some w, new_content := some v } from rfl,
      show (aliasStepReplacement { op := some "replace_method", replacement := some w, new_content := some v } : Edit) = { op := some "replace_method", replacement := some w, new_content := some v } from rfl,
      show (aliasStepAfterBefore { op := some "replace_method", replacement := some w, new_content := some v } : Edit) = { op := some "replace_method", replacement := some w, new_content := some v } from rfl,
      show (aliasStepAnchorMethod { op := some "replace_method", replacement := some w, new_content := some v } : Edit) = { op := some "replace_method", replacement := some w, new_content := some v } from rfl,
      show (aliasStepAnchor { op := some "replace_method", replacement := some w, new_content := some v } : Edit) = { op := some "replace_method", replacement := some w, new_content := some v } from rfl,
      show (aliasStepNewText { op := some "replace_method", replacement := some w, new_content := some v } : Edit) = { op := some "replace_method", replacement := some w, new_content := some v } from rfl,
      show (aliasStepReclass { op := some "replace_method", replacement := some w, new_content := some v } : Edit) = { op := some "replace_method", replacement := some w, new_content := some v } from rfl,
      show (aliasStepRange { op := some "replace_method", replacement := some w, new_content := some v } { op := some "replace_method", replacement := some w, new_content := some v } : Edit) = { op := some "replace_method", replacement := some w, new_content := some v } from rfl]
  · intro v w
    unfold aliasResolve
    rw [show (aliasStepOp { op := some "replace_class", className := some w, class_name := some v } : Edit) = { op := some "replace_class", className := some w, class_name := some v } from rfl,
      show (aliasStepClass { op := some "replace_class", className := some w, class_name := some v } : Edit) = { op := some "replace_class", className := some w, class_name := some v } from rfl,
      show (aliasStepMethod { op := some "replace_class", className := some w, class_name := some v } : Edit) = { op := some "replace_class", className := some w, class_name := some v } from rfl,
      show (aliasStepReplacement { op := some "replace_class", className := some w, class_name := some v } : Edit) = { op := some "replace_class", className := some w, class_name := some v } from rfl,
      show (aliasStepAfterBefore { op := some "replace_class", className := some w, class_name := some v } : Edit) = { op := some "replace_class", className := some w, class_name := some v } from rfl,
      show (aliasStepAnchorMethod { op := some "replace_class", className := some w, class_name := some v } : Edit) = { op := some "replace_class", className := some w, class_name := some v } from rfl,
      show (aliasStepAnchor { op := some "replace_class", className := some w, class_name := some v } : Edit) = { op := some "replace_class", className := some w, class_name := some v } from rfl,
      show (aliasStepNewText { op := some "replace_class", className := some w, class_name := some v } : Edit) = { op := some "replace_class", className := some w, class_name := some v } from rfl,
      show (aliasStepReclass { op := some "replace_class", className := some w, class_name := some v } : Edit) = { op := some "replace_class", className := some w, class_name := some v } from rfl,
      show (aliasStepRange { op := some "replace_class", className := some w, class_name := some v } { op := some "replace_class", className := some w, class_name := some v } : Edit) = { op := some "replace_class", className := some w, class_name := some v } from rfl]
  · intro p q
    unfold aliasResolve
    rw [show (aliasStepOp { op := some "anchor_replace", anchor := some q, anchorText := some p } : Edit) = { op := some "anchor_replace", anchor := some q, anchorText := some p } from rfl,
      show (aliasStepClass { op := some "anchor_replace", anchor := some q, anchorText := some p } : Edit) = { op := some "anchor_replace", anchor := some q, anchorText := some p } from rfl,
      show (aliasStepMethod { op := some "anchor_replace", anchor := some q, anchorText := some p } : Edit) = { op := some "anchor_replace", anchor := some q, anchorText := some p } from rfl,
      show (aliasStepReplacement { op := some "anchor_replace", anchor := some q, anchorText := some p } : Edit) = { op := some "anchor_replace", anchor := some q, anchorText := some p } from rfl,
      show (aliasStepAfterBefore { op := some "anchor_replace", anchor := some q, anchorText := some p } : Edit) = { op := some "anchor_replace", anchor := some q, anchorText := some p } from rfl,
      show (aliasStepAnchorMethod { op := some "anchor_replace", anchor := some q, anchorText := some p } : Edit) = { op := some "anchor_replace", anchor := some q, anchorText := some p } from rfl,
      show (aliasStepAnchor { op := some "anchor_replace", anchor := some q, anchorText := some p } : Edit) = { op := some "anchor_replace", anchor := some q, anchorText := some p } from rfl,
      show (aliasStepNewText { op := some "anchor_replace", anchor := some q, anchorText := some p } : Edit) = { op := some "anchor_replace", anchor := some q, anchorText := some p } from rfl,
      show (aliasStepReclass { op := some "anchor_replace", anchor := some q, anchorText := some p } : Edit) = { op := some "anchor_replace", anchor := some q, anchorText := some p } from rfl,
      show (aliasStepRange { op := some "anchor_replace", anchor := some q, anchorText := some p } { op := some "anchor_replace", anchor := some q, anchorText := some p } : Edit) = { op := some "anchor_replace", anchor := some q, anchorText := some p } from rfl]


theorem applyEditsLocally_single (buf : String) (e : Edit) :
    applyEditsLocally buf [e] = (applyOneLocal buf.toList e).map String.mk := by
  unfold applyEditsLocally applyEditsLocallyL
  cases h : applyOneLocal buf.toList e <;>
    simp [h, Bind.bind, Except.bind, Except.map, applyEditsLocallyL]

theorem applyOneLocal_replace_range (t : List Char) (sl sc el ec : Int) (txt : String) :
    applyOneLocal t (mkRR sl sc el ec txt) =
      if sl < 1 ∨ el < sl ∨ el > ((splitLinesKeep t).length : Int) + 1 ∨ sc < 1 ∨ ec < 1
      then .error "replace_range out of bounds"
      else .ok (t.take (lineColOffset t sl sc) ++ txt.toList ++ t.drop (lineColOffset t el ec)) := by
  have hop : opTagFull (mkRR sl sc el ec txt) = "replace_range" := rfl
  simp only [applyOneLocal, hop]
  rw [if_neg (by decide : ¬ (("replace_range" : String) = "")),
      if_neg (by decide : ¬ (("replace_range" : String) = "prepend")),
      if_neg (by decide : ¬ (("replace_range" : String) = "append")),
      if_neg (by decide : ¬ (("replace_range" : String) = "anchor_insert")),
      if_pos (trivial : True)]
  simp only [mkRR, Option.getD_some, lineColOffset]

/-- C9: `replace_range` in the Local Edit Applier raises its out-of-bounds
error exactly when `1 ≤ startLine ≤ endLine ≤ lineCount+1 ∧ startCol ≥ 1 ∧
endCol ≥ 1` fails; when the condition holds, the edit replaces the offset
range obtained by summing prior (keepends) line lengths; in particular with
startLine=startCol=endLine=endCol=1 and text "A" on the one-line buffer
"abc" it inserts "A" at the very start without consuming any original
character. -/
theorem c9_replace_range_bounds (buf : String) (sl sc el ec : Int) (txt : String) :
    (applyEditsLocally buf [mkRR sl sc el ec txt] = .error "replace_range out of bounds"
      ↔ ¬ (1 ≤ sl ∧ sl ≤ el ∧ el ≤ ((splitLinesKeep buf.toList).length : Int) + 1
            ∧ 1 ≤ sc ∧ 1 ≤ ec)) ∧
    ((1 ≤ sl ∧ sl ≤ el ∧ el ≤ ((splitLinesKeep buf.toList).length : Int) + 1
        ∧ 1 ≤ sc ∧ 1 ≤ ec) →
      applyEditsLocally buf [mkRR sl sc el ec txt] =
        .ok (String.mk (buf.toList.take (lineColOffset buf.toList sl sc)
          ++ txt.toList ++ buf.toList.drop (lineColOffset buf.toList el ec)))) ∧
    applyEditsLocally "abc" [rrInsEdit] = .ok "Aabc" := by
  rw [applyEditsLocally_single, applyOneLocal_replace_range]
  refine ⟨?_, ?_, rfl⟩
  · by_cases hcc : sl < 1 ∨ el < sl ∨ el > ((splitLinesKeep buf.toList).length : Int) + 1
        ∨ sc < 1 ∨ ec < 1
    · rw [if_pos hcc]
      simp only [Except.map]
      constructor
      · intro _
        omega
      · intro _
        trivial
    · rw [if_neg hcc]
      simp only [Except.map]
      constructor
      · intro h
        exact absurd h (by simp)
      · intro hclaim
        exact absurd hclaim (by omega)
  · intro hclaim
    rw [if_neg (by omega)]
    rfl

/-- Witness for C9: the in-bounds insertion example evaluated. -/
theorem c9_replace_range_witness :
    applyEditsLocally "abc" [mkRR 1 1 1 1 "A"] = .ok "Aabc" :=
  ((c9_replace_range_bounds "abc" 1 1 1 1 "A").2.1 (by decide)).trans rfl

/-- C10: an anchor_insert whose anchor compiles but matches nothing leaves
the buffer unchanged and continues with the remaining edits without
raising — unless the edit explicitly sets allow_noop to false, in which
case the application raises "anchor not found" and applies nothing
further. -/
theorem c10_anchor_insert_noop (buf : String) (rest : List Edit) (e : Edit) (p : APat)
    (hop : opTagFull e = "anchor_insert")
    (hanch : e.anchor = some p)
    (hm : finditer p (e.ignore_case.getD false) buf.toList = .ok []) :
    (e.allow_noop ≠ some false →
      applyEditsLocally buf (e :: rest) = applyEditsLocally buf rest) ∧
    (e.allow_noop = some false →
      applyEditsLocally buf (e :: rest) = .error ("anchor not found: " ++ p.text)) := by
  have hfind : findBestAnchorMatch p (e.ignore_case.getD false) buf.toList
      (e.prefer_last.getD true) = .ok none := by
    unfold findBestAnchorMatch
    rw [hm]
    rfl
  have hone : applyOneLocal buf.toList e =
      (if e.allow_noop.getD true then .ok buf.toList
       else .error ("anchor not found: " ++ p.text)) := by
    simp only [applyOneLocal, hop, hanch, Option.getD_some, hfind]
    rw [if_neg (by decide : ¬ (("anchor_insert" : String) = "")),
        if_neg (by decide : ¬ (("anchor_insert" : String) = "prepend")),
        if_neg (by decide : ¬ (("anchor_insert" : String) = "append")),
        if_pos (trivial : True)]
  constructor
  · intro hno
    have hgd : e.allow_noop.getD true = true := by
      cases hn : e.allow_noop with
      | none => rfl
      | some b =>
        cases b with
        | false => exact absurd hn hno
        | true => rfl
    unfold applyEditsLocally applyEditsLocallyL
    rw [hone, hgd]
    simp only [Bind.bind, Except.bind, if_true]
    cases rest with
    | nil => rfl
    | cons x xs => rfl
  · intro hno
    have hgd : e.allow_noop.getD true = false := by rw [hno]; rfl
    unfold applyEditsLocally applyEditsLocallyL
    rw [hone, hgd]
    simp [Bind.bind, Except.bind, Except.map]

/-- Witness for C10: the no-match anchor_insert on "abc" (allow_noop unset)
is skipped and the remaining prepend still applies. -/
theorem c10_anchor_insert_noop_witness :
    applyEditsLocally "abc" [anchMissEdit, prependQEdit] = applyEditsLocally "abc" [prependQEdit] :=
  (c10_anchor_insert_noop "abc" [prependQEdit] anchMissEdit (.lit "zzz") rfl rfl rfl).1 (by decide)

end UnityMcp